import Mathlib

/-!
# Route actions of the v7 actor (`actor/v7action/route.go`)

A shallow embedding of `Actor.CreateRoute` and `Actor.DeleteRoute`.

* Go strings are Lean `String`s.  The test `string(path[0]) != "/"` looks at the first byte
  of the path; for UTF-8 text the first byte is `0x2F` exactly when the first character is
  `/`, so the embedding inspects the first character.
* A Go `error` value is an `Option Error`, `none` being `nil`.
* The collaborators (the resolvers of the actor and the cloud controller client) are fields
  of `Actor`.  Each one takes the state of the outside world and returns its Go results
  together with the new state, so successive calls may influence each other.
* Every collaborator call the source makes is recorded, in order, in `Run.calls`.
* `Actor.GetRoutesBySpace` and `Actor.GetRoutesByOrg` are embedded the same way; a Go map is
  a function from keys to optional values, a `for ... range` loop is a left fold.
* `Actor.Authenticate` is not among the source files at hand (only its test file is); its
  embedding follows the specification, section 4.4, and is marked as such.
-/

namespace V7action

/-- Go type `Warnings` (`[]string`). -/
abbrev Warnings := List String

/-- Go type `v7action.Route` (route.go, lines 9-17). -/
structure Route where
  GUID : String
  SpaceGUID : String
  DomainGUID : String
  Host : String
  Path : String
  DomainName : String
  SpaceName : String
  deriving DecidableEq

/-- Go zero value `Route{}`. -/
def Route.zero : Route := ⟨"", "", "", "", "", "", ""⟩

/-- Modelled from the spec: the error values that route.go builds or inspects; their type
declarations live in the packages `ccerror` and `actionerror`.  `RouteNotUniqueError` is the
backend "route not unique" error, `RouteAlreadyExistsError` wraps a cause in its field `Err`,
`RouteNotFoundError` carries domain name, host and path,
`PasswordGrantTypeLogoutRequiredError` is the refusal of a password login after a
client-credentials login, and `other` stands for every error value of any other dynamic
type. -/
inductive Error where
  | RouteNotUniqueError (Message : String)
  | RouteAlreadyExistsError (Err : Error)
  | RouteNotFoundError (DomainName Host Path : String)
  | PasswordGrantTypeLogoutRequiredError
  | other (description : String)
  deriving DecidableEq

namespace ccv3

/-- Modelled from the spec: the fields of `ccv3.Route` that route.go reads or writes. -/
structure Route where
  GUID : String
  SpaceGUID : String
  DomainGUID : String
  Host : String
  Path : String
  deriving DecidableEq

/-- Modelled from the spec: the filter keys of `ccv3` that route.go uses. -/
inductive QueryKey where
  | SpaceGUIDFilter
  | GUIDFilter
  | OrganizationGUIDFilter
  | DomainGUIDFilter
  | HostnameFilter
  | PathFilter
  deriving DecidableEq

/-- Modelled from the spec: `ccv3.Query`, a key with its values. -/
structure Query where
  Key : QueryKey
  Values : List String
  deriving DecidableEq

/-- Modelled from the spec: the fields of `ccv3.Space` that route.go reads. -/
structure Space where
  GUID : String
  Name : String
  deriving DecidableEq

/-- Modelled from the spec: the fields of `ccv3.Domain` that route.go reads. -/
structure Domain where
  GUID : String
  Name : String
  deriving DecidableEq

/-- Modelled from the spec: `ccv3.JobURL`, the handle of an asynchronous job. -/
abbrev JobURL := String

end ccv3

/-- Modelled from the spec: an organization as the resolver returns it (GUID and name). -/
structure Organization where
  GUID : String
  Name : String
  deriving DecidableEq

/-- Modelled from the spec: a space as the resolver returns it (GUID and name). -/
structure Space where
  GUID : String
  Name : String
  deriving DecidableEq

/-- Modelled from the spec: a domain as the resolver returns it (GUID and name). -/
structure Domain where
  GUID : String
  Name : String
  deriving DecidableEq

/-- Modelled from the spec: the methods of the cloud controller client that route.go calls,
over a world state `σ`. -/
structure CloudControllerClient (σ : Type) where
  CreateRoute : ccv3.Route → σ → (ccv3.Route × Warnings × Option Error) × σ
  GetRoutes : List ccv3.Query → σ → (List ccv3.Route × Warnings × Option Error) × σ
  GetSpaces : List ccv3.Query → σ → (List ccv3.Space × Warnings × Option Error) × σ
  GetDomains : List ccv3.Query → σ → (List ccv3.Domain × Warnings × Option Error) × σ
  DeleteRoute : String → σ → (ccv3.JobURL × Warnings × Option Error) × σ
  PollJob : ccv3.JobURL → σ → (Warnings × Option Error) × σ

/-- Modelled from the spec: the actor, with its client and the three resolver methods that
route.go calls (their bodies are in other files of the package). -/
structure Actor (σ : Type) where
  CloudControllerClient : CloudControllerClient σ
  GetDomainByName : String → σ → (Domain × Warnings × Option Error) × σ
  GetOrganizationByName : String → σ → (Organization × Warnings × Option Error) × σ
  GetSpaceByNameAndOrganization : String → String → σ → (Space × Warnings × Option Error) × σ

/-- One collaborator call, with its arguments. -/
inductive Call where
  | GetDomainByName (domainName : String)
  | GetOrganizationByName (orgName : String)
  | GetSpaceByNameAndOrganization (spaceName orgGUID : String)
  | CreateRoute (route : ccv3.Route)
  | GetRoutes (query : List ccv3.Query)
  | GetSpaces (query : List ccv3.Query)
  | GetDomains (query : List ccv3.Query)
  | DeleteRoute (routeGUID : String)
  | PollJob (jobURL : ccv3.JobURL)
  | UAAGrantType
  | UAAClientAuthenticate (credentials : List (String × String)) (origin grantType : String)
  | SetTokenInformation (accessToken refreshToken sshOAuthClient : String)
  | UnsetOrganizationAndSpaceInformation
  | SetUAAGrantType (uaaGrantType : String)
  | SetUAAClientCredentials (client clientSecret : String)
  deriving DecidableEq

/-- What a run of an actor method leaves behind: the Go results (`value`, `warnings`, `err`),
the collaborator calls made, in order, and the final world state. -/
structure Run (σ α : Type) where
  value : α
  warnings : Warnings
  err : Option Error
  calls : List Call
  state : σ

/-- The path rewrite of `CreateRoute` (route.go, lines 40-42):
`if path != "" && string(path[0]) != "/" { path = "/" + path }`. -/
def CreateRoute.path (path : String) : String :=
  if path ≠ "" ∧ path.get 0 ≠ '/' then "/" ++ path else path

/-- Go method `Actor.CreateRoute` (route.go, lines 19-66). -/
def CreateRoute {σ : Type} (actor : Actor σ)
    (orgName spaceName domainName hostname path : String) (s : σ) : Run σ Route :=
  let allWarnings : Warnings := []
  let ((domain, warnings, err), s) := actor.GetDomainByName domainName s
  let calls := [Call.GetDomainByName domainName]
  let allWarnings := allWarnings ++ warnings
  if err ≠ none then
    ⟨Route.zero, allWarnings, err, calls, s⟩
  else
    let ((org, warnings, err), s) := actor.GetOrganizationByName orgName s
    let calls := calls ++ [Call.GetOrganizationByName orgName]
    let allWarnings := allWarnings ++ warnings
    if err ≠ none then
      ⟨Route.zero, allWarnings, err, calls, s⟩
    else
      let ((space, warnings, err), s) :=
        actor.GetSpaceByNameAndOrganization spaceName org.GUID s
      let calls := calls ++ [Call.GetSpaceByNameAndOrganization spaceName org.GUID]
      let allWarnings := allWarnings ++ warnings
      if err ≠ none then
        ⟨Route.zero, allWarnings, err, calls, s⟩
      else
        let path := CreateRoute.path path
        let request : ccv3.Route :=
          { GUID := "", SpaceGUID := space.GUID, DomainGUID := domain.GUID,
            Host := hostname, Path := path }
        let ((route, apiWarnings, err), s) := actor.CloudControllerClient.CreateRoute request s
        let calls := calls ++ [Call.CreateRoute request]
        let actorWarnings : Warnings := apiWarnings
        let allWarnings := allWarnings ++ actorWarnings
        match err with
        | some (Error.RouteNotUniqueError m) =>
          ⟨Route.zero, allWarnings,
            some (Error.RouteAlreadyExistsError (Error.RouteNotUniqueError m)), calls, s⟩
        | _ =>
          ⟨{ GUID := route.GUID, Host := route.Host, Path := route.Path,
             SpaceGUID := route.SpaceGUID, DomainGUID := route.DomainGUID,
             SpaceName := spaceName, DomainName := domainName }, allWarnings, err, calls, s⟩

/-- The path rewrite of `DeleteRoute` (route.go, lines 210-212):
`if path != "" && string(path[0]) != "/" { path = "/" + path }`. -/
def DeleteRoute.path (path : String) : String :=
  if path ≠ "" ∧ path.get 0 ≠ '/' then "/" ++ path else path

/-- Go method `Actor.DeleteRoute` (route.go, lines 201-249).  The test `len(routes) == 0`
followed by `routes[0]` is the match on the list of routes. -/
def DeleteRoute {σ : Type} (actor : Actor σ)
    (domainName hostname path : String) (s : σ) : Run σ Unit :=
  let allWarnings : Warnings := []
  let ((domain, warnings, err), s) := actor.GetDomainByName domainName s
  let calls := [Call.GetDomainByName domainName]
  let allWarnings := allWarnings ++ warnings
  if err ≠ none then
    ⟨(), allWarnings, err, calls, s⟩
  else
    let path := DeleteRoute.path path
    let queryArray : List ccv3.Query :=
      [ ⟨ccv3.QueryKey.DomainGUIDFilter, [domain.GUID]⟩,
        ⟨ccv3.QueryKey.HostnameFilter, [hostname]⟩,
        ⟨ccv3.QueryKey.PathFilter, [path]⟩ ]
    let ((routes, apiWarnings, err), s) := actor.CloudControllerClient.GetRoutes queryArray s
    let calls := calls ++ [Call.GetRoutes queryArray]
    let actorWarnings : Warnings := apiWarnings
    let allWarnings := allWarnings ++ actorWarnings
    if err ≠ none then
      ⟨(), allWarnings, err, calls, s⟩
    else
      match routes with
      | [] => ⟨(), allWarnings, some (Error.RouteNotFoundError domainName hostname path), calls, s⟩
      | route0 :: _ =>
        let ((jobURL, apiWarnings, err), s) :=
          actor.CloudControllerClient.DeleteRoute route0.GUID s
        let calls := calls ++ [Call.DeleteRoute route0.GUID]
        let actorWarnings : Warnings := apiWarnings
        let allWarnings := allWarnings ++ actorWarnings
        if err ≠ none then
          ⟨(), allWarnings, err, calls, s⟩
        else
          let ((pollJobWarnings, err), s) := actor.CloudControllerClient.PollJob jobURL s
          let calls := calls ++ [Call.PollJob jobURL]
          let allWarnings := allWarnings ++ pollJobWarnings
          ⟨(), allWarnings, err, calls, s⟩

/-- Whether a recorded call is a route query of the client. -/
def Call.isGetRoutes : Call → Bool
  | Call.GetRoutes _ => true
  | _ => false

/-- A small concrete world: the state counts the calls made so far. -/
def demoClient (createErr : Option Error) (routes : List ccv3.Route) (pollErr : Option Error) :
    CloudControllerClient Nat where
  CreateRoute := fun r n => ((⟨"route-guid", r.SpaceGUID, r.DomainGUID, r.Host, r.Path⟩,
    ["create-warning"], createErr), n + 1)
  GetRoutes := fun _ n => ((routes, ["routes-warning"], none), n + 1)
  GetSpaces := fun _ n => (([], ["spaces-warning"], none), n + 1)
  GetDomains := fun _ n => (([], ["domains-warning"], none), n + 1)
  DeleteRoute := fun _ n => (("job-url", ["delete-warning"], none), n + 1)
  PollJob := fun _ n => ((["poll-warning"], pollErr), n + 1)

/-- A concrete actor over `demoClient`; each resolver fails when asked to. -/
def demoActor (domainErr orgErr spaceErr createErr : Option Error)
    (routes : List ccv3.Route) (pollErr : Option Error) : Actor Nat where
  CloudControllerClient := demoClient createErr routes pollErr
  GetDomainByName := fun name n => ((⟨"domain-guid", name⟩, ["domain-warning"], domainErr), n + 1)
  GetOrganizationByName := fun name n => ((⟨"org-guid", name⟩, ["org-warning"], orgErr), n + 1)
  GetSpaceByNameAndOrganization := fun name _ n =>
    ((⟨"space-guid", name⟩, ["space-warning"], spaceErr), n + 1)

/-- A Go map with string keys: the value stored under each key, if any. -/
def GoMap (ν : Type) : Type := String → Option ν

/-- Go map literal with no entry, as in `map[string]struct{}{}`. -/
def GoMap.empty {ν : Type} : GoMap ν := fun _ => none

/-- Go assignment `m[k] = v`. -/
def GoMap.set {ν : Type} (m : GoMap ν) (k : String) (v : ν) : GoMap ν :=
  fun k2 => if k2 = k then some v else m k2

/-- Go test `_, ok := m[k]`. -/
def GoMap.has {ν : Type} (m : GoMap ν) (k : String) : Bool := (m k).isSome

/-- Go expression `m[k]`, which is the zero value of the value type when the key is absent. -/
def GoMap.index {ν : Type} (m : GoMap ν) (k : String) (zero : ν) : ν := (m k).getD zero

/-- The loop of `GetRoutesBySpace` that collects the domain GUIDs (route.go, lines 89-97):
a route whose DomainGUID is already in `domainGUIDsSet` is skipped, any other one has its
DomainGUID put in the set and appended to `domainGUIDs`. -/
def GetRoutesBySpace.domainGUIDs (routes : List ccv3.Route) : List String :=
  (routes.foldl
    (fun (st : GoMap Unit × List String) (route : ccv3.Route) =>
      if st.1.has route.DomainGUID then st
      else (st.1.set route.DomainGUID (), st.2 ++ [route.DomainGUID]))
    (GoMap.empty, [])).2

/-- The loop of lines 108-111 and 175-178: `spacesByGUID[space.GUID] = space`. -/
def spacesByGUID (spaces : List ccv3.Space) : GoMap ccv3.Space :=
  spaces.foldl (fun m space => m.set space.GUID space) GoMap.empty

/-- The loop of lines 113-116 and 180-183: `domainsByGUID[domain.GUID] = domain`. -/
def domainsByGUID (domains : List ccv3.Domain) : GoMap ccv3.Domain :=
  domains.foldl (fun m domain => m.set domain.GUID domain) GoMap.empty

/-- The loop of lines 118-129 and 185-196, which appends one `Route` per backend route to
`actorRoutes`, the names being read from the two maps. -/
def actorRoutes (routes : List ccv3.Route) (spaces : GoMap ccv3.Space)
    (domains : GoMap ccv3.Domain) : List Route :=
  routes.foldl
    (fun acc route => acc ++
      [{ GUID := route.GUID, Host := route.Host, Path := route.Path,
         SpaceGUID := route.SpaceGUID, DomainGUID := route.DomainGUID,
         SpaceName := (spaces.index route.SpaceGUID ⟨"", ""⟩).Name,
         DomainName := (domains.index route.DomainGUID ⟨"", ""⟩).Name }])
    []

/-- Go method `Actor.GetRoutesBySpace` (route.go, lines 68-132).  The returned slice is
`none` for Go's `nil` and `some` for a slice that was made. -/
def GetRoutesBySpace {σ : Type} (actor : Actor σ) (spaceGUID : String) (s : σ) :
    Run σ (Option (List Route)) :=
  let allWarnings : Warnings := []
  let routesQuery : List ccv3.Query := [⟨ccv3.QueryKey.SpaceGUIDFilter, [spaceGUID]⟩]
  let ((routes, warnings, err), s) := actor.CloudControllerClient.GetRoutes routesQuery s
  let calls := [Call.GetRoutes routesQuery]
  let allWarnings := allWarnings ++ warnings
  if err ≠ none then
    ⟨none, allWarnings, err, calls, s⟩
  else
    let spacesQuery : List ccv3.Query := [⟨ccv3.QueryKey.GUIDFilter, [spaceGUID]⟩]
    let ((spaces, warnings, err), s) := actor.CloudControllerClient.GetSpaces spacesQuery s
    let calls := calls ++ [Call.GetSpaces spacesQuery]
    let allWarnings := allWarnings ++ warnings
    if err ≠ none then
      ⟨none, allWarnings, err, calls, s⟩
    else
      let domainGUIDs := GetRoutesBySpace.domainGUIDs routes
      let domainsQuery : List ccv3.Query := [⟨ccv3.QueryKey.GUIDFilter, domainGUIDs⟩]
      let ((domains, warnings, err), s) := actor.CloudControllerClient.GetDomains domainsQuery s
      let calls := calls ++ [Call.GetDomains domainsQuery]
      let allWarnings := allWarnings ++ warnings
      if err ≠ none then
        ⟨none, allWarnings, err, calls, s⟩
      else
        ⟨some (actorRoutes routes (spacesByGUID spaces) (domainsByGUID domains)),
          allWarnings, none, calls, s⟩

/-- The body of the loop of `GetRoutesByOrg` (route.go, lines 152-160); the state is the two
sets followed by the two queries. -/
def GetRoutesByOrg.loopBody (st : GoMap Unit × GoMap Unit × ccv3.Query × ccv3.Query)
    (route : ccv3.Route) : GoMap Unit × GoMap Unit × ccv3.Query × ccv3.Query :=
  let (spaceGUIDsSet, domainGUIDsSet, spacesQuery, domainsQuery) := st
  let (spaceGUIDsSet, spacesQuery) :=
    if ¬ spaceGUIDsSet.has route.SpaceGUID then
      (spaceGUIDsSet.set route.SpaceGUID (),
        { spacesQuery with Values := spacesQuery.Values ++ [route.SpaceGUID] })
    else (spaceGUIDsSet, spacesQuery)
  let (domainGUIDsSet, domainsQuery) :=
    if ¬ domainGUIDsSet.has route.DomainGUID then
      (domainGUIDsSet.set route.DomainGUID (),
        { domainsQuery with Values := domainsQuery.Values ++ [route.DomainGUID] })
    else (domainGUIDsSet, domainsQuery)
  (spaceGUIDsSet, domainGUIDsSet, spacesQuery, domainsQuery)

/-- The loop of `GetRoutesByOrg` that fills `spacesQuery.Values` and `domainsQuery.Values`
(route.go, lines 146-161), started with two empty sets and two queries without values; the
result is the pair of queries. -/
def GetRoutesByOrg.queries (routes : List ccv3.Route) : ccv3.Query × ccv3.Query :=
  let st := routes.foldl GetRoutesByOrg.loopBody
    (GoMap.empty, GoMap.empty, ⟨ccv3.QueryKey.GUIDFilter, []⟩, ⟨ccv3.QueryKey.GUIDFilter, []⟩)
  (st.2.2.1, st.2.2.2)

/-- Go method `Actor.GetRoutesByOrg` (route.go, lines 134-199).  The returned slice is
`none` for Go's `nil` and `some` for a slice that was made. -/
def GetRoutesByOrg {σ : Type} (actor : Actor σ) (orgGUID : String) (s : σ) :
    Run σ (Option (List Route)) :=
  let allWarnings : Warnings := []
  let routesQuery : List ccv3.Query := [⟨ccv3.QueryKey.OrganizationGUIDFilter, [orgGUID]⟩]
  let ((routes, warnings, err), s) := actor.CloudControllerClient.GetRoutes routesQuery s
  let calls := [Call.GetRoutes routesQuery]
  let allWarnings := allWarnings ++ warnings
  if err ≠ none then
    ⟨none, allWarnings, err, calls, s⟩
  else
    let (spacesQuery, domainsQuery) := GetRoutesByOrg.queries routes
    let ((spaces, warnings, err), s) := actor.CloudControllerClient.GetSpaces [spacesQuery] s
    let calls := calls ++ [Call.GetSpaces [spacesQuery]]
    let allWarnings := allWarnings ++ warnings
    if err ≠ none then
      ⟨none, allWarnings, err, calls, s⟩
    else
      let ((domains, warnings, err), s) :=
        actor.CloudControllerClient.GetDomains [domainsQuery] s
      let calls := calls ++ [Call.GetDomains [domainsQuery]]
      let allWarnings := allWarnings ++ warnings
      if err ≠ none then
        ⟨none, allWarnings, err, calls, s⟩
      else
        ⟨some (actorRoutes routes (spacesByGUID spaces) (domainsByGUID domains)),
          allWarnings, none, calls, s⟩

/-- The words of the specification for the values of a batched lookup: the GUIDs in order
of first occurrence, every later repeat removed. -/
def firstOccurrences : List String → List String
  | [] => []
  | g :: gs => g :: (firstOccurrences gs).filter (fun x => x ≠ g)

/-- The words of the specification for the joined space name: the Name of the last space of
the batch whose GUID is `guid`, and the empty string when the batch holds none. -/
def spaceNameByGUID (spaces : List ccv3.Space) (guid : String) : String :=
  match (spaces.filter (fun space => space.GUID = guid)).getLast? with
  | some space => space.Name
  | none => ""

/-- The words of the specification for the joined domain name: the Name of the last domain
of the batch whose GUID is `guid`, and the empty string when the batch holds none. -/
def domainNameByGUID (domains : List ccv3.Domain) (guid : String) : String :=
  match (domains.filter (fun domain => domain.GUID = guid)).getLast? with
  | some domain => domain.Name
  | none => ""

/-- A concrete client in which every call can be made to fail and the three lists are
given; the state counts the calls made so far. -/
def listClient (routes : List ccv3.Route) (spaces : List ccv3.Space)
    (domains : List ccv3.Domain)
    (routesErr spacesErr domainsErr deleteErr pollErr : Option Error) :
    CloudControllerClient Nat where
  CreateRoute := fun r n => ((r, ["create-warning"], none), n + 1)
  GetRoutes := fun _ n => ((routes, ["routes-warning"], routesErr), n + 1)
  GetSpaces := fun _ n => ((spaces, ["spaces-warning"], spacesErr), n + 1)
  GetDomains := fun _ n => ((domains, ["domains-warning"], domainsErr), n + 1)
  DeleteRoute := fun _ n => (("job-url", ["delete-warning"], deleteErr), n + 1)
  PollJob := fun _ n => ((["poll-warning"], pollErr), n + 1)

/-- A concrete actor over `listClient`. -/
def listActor (routes : List ccv3.Route) (spaces : List ccv3.Space)
    (domains : List ccv3.Domain)
    (domainErr routesErr spacesErr domainsErr deleteErr pollErr : Option Error) :
    Actor Nat where
  CloudControllerClient :=
    listClient routes spaces domains routesErr spacesErr domainsErr deleteErr pollErr
  GetDomainByName := fun name n => ((⟨"domain-guid", name⟩, ["domain-warning"], domainErr), n + 1)
  GetOrganizationByName := fun name n => ((⟨"org-guid", name⟩, ["org-warning"], none), n + 1)
  GetSpaceByNameAndOrganization := fun name _ n =>
    ((⟨"space-guid", name⟩, ["space-warning"], none), n + 1)

/-- The name of the method a recorded call went to. -/
def Call.method : Call → String
  | Call.GetDomainByName _ => "GetDomainByName"
  | Call.GetOrganizationByName _ => "GetOrganizationByName"
  | Call.GetSpaceByNameAndOrganization _ _ => "GetSpaceByNameAndOrganization"
  | Call.CreateRoute _ => "CreateRoute"
  | Call.GetRoutes _ => "GetRoutes"
  | Call.GetSpaces _ => "GetSpaces"
  | Call.GetDomains _ => "GetDomains"
  | Call.DeleteRoute _ => "DeleteRoute"
  | Call.PollJob _ => "PollJob"
  | Call.UAAGrantType => "UAAGrantType"
  | Call.UAAClientAuthenticate _ _ _ => "Authenticate"
  | Call.SetTokenInformation _ _ _ => "SetTokenInformation"
  | Call.UnsetOrganizationAndSpaceInformation => "UnsetOrganizationAndSpaceInformation"
  | Call.SetUAAGrantType _ => "SetUAAGrantType"
  | Call.SetUAAClientCredentials _ _ => "SetUAAClientCredentials"

/-- The recorded calls that went to the method of the given name, in order. -/
def callsTo (method : String) (calls : List Call) : List Call :=
  calls.filter (fun c => c.method = method)

/-! ### Authentication -/

/-- Modelled from the spec: the grant types of package `constant`, which are strings. -/
abbrev GrantType := String

/-- Modelled from the spec: the password grant type. -/
def GrantTypePassword : GrantType := "password"

/-- Modelled from the spec: the client-credentials grant type, stored by the session store as
the string `client_credentials`. -/
def GrantTypeClientCredentials : GrantType := "client_credentials"

/-- Modelled from the spec: the session store (section 6), over a world state `σ`:
`SetTokenInformation(access, refresh, sshOAuthClient)`,
`UnsetOrganizationAndSpaceInformation()`, `SetUAAGrantType(value)`, `UAAGrantType() → value`,
`SetUAAClientCredentials(client, secret)`. -/
structure Config (σ : Type) where
  UAAGrantType : σ → String × σ
  SetTokenInformation : String → String → String → σ → σ
  UnsetOrganizationAndSpaceInformation : σ → σ
  SetUAAGrantType : String → σ → σ
  SetUAAClientCredentials : String → String → σ → σ

/-- Modelled from the spec: the identity-provider client (section 6),
`Authenticate(credentials map, origin string, grantType) → (accessToken, refreshToken, error)`.
The credential map is the list of its entries. -/
structure UAAClient (σ : Type) where
  Authenticate : List (String × String) → String → GrantType → σ →
    (String × String × Option Error) × σ

/-- Modelled from the spec: the two collaborators of the actor that authentication uses. -/
structure AuthActor (σ : Type) where
  Config : Config σ
  UAAClient : UAAClient σ

/-- Modelled from the spec: the Go expression `credentials[key]` on the credential map, the
empty string when the key is absent. -/
def credential (credentials : List (String × String)) (key : String) : String :=
  match credentials.find? (fun kv => kv.1 = key) with
  | some kv => kv.2
  | none => ""

/-- Modelled from the spec: steps 2, 3, 4, 5 and 6 of `Authenticate` (section 4.4), the body
of `Actor.Authenticate` not being among the source files.  The identity-provider client is
called with the credential map, origin and grant type as given.  On failure empty tokens are
persisted, the organization and space are unset and the error is returned; no grant type is
persisted.  On success `bearer ` followed by the access token, the raw refresh token and an
empty SSH-OAuth client are persisted, the organization and space are unset, and the stored
grant type is reset to empty for a password grant; for any other grant type the grant type
is stored and the `client_id` credential is stored with an empty secret. -/
def Authenticate.exchange {σ : Type} (actor : AuthActor σ)
    (credentials : List (String × String)) (origin : String) (grantType : GrantType)
    (calls : List Call) (s : σ) : Run σ Unit :=
  let ((accessToken, refreshToken, err), s) :=
    actor.UAAClient.Authenticate credentials origin grantType s
  let calls := calls ++ [Call.UAAClientAuthenticate credentials origin grantType]
  if err ≠ none then
    let s := actor.Config.SetTokenInformation "" "" "" s
    let calls := calls ++ [Call.SetTokenInformation "" "" ""]
    let s := actor.Config.UnsetOrganizationAndSpaceInformation s
    let calls := calls ++ [Call.UnsetOrganizationAndSpaceInformation]
    ⟨(), [], err, calls, s⟩
  else
    let accessToken := "bearer " ++ accessToken
    let s := actor.Config.SetTokenInformation accessToken refreshToken "" s
    let calls := calls ++ [Call.SetTokenInformation accessToken refreshToken ""]
    let s := actor.Config.UnsetOrganizationAndSpaceInformation s
    let calls := calls ++ [Call.UnsetOrganizationAndSpaceInformation]
    if grantType = GrantTypePassword then
      let s := actor.Config.SetUAAGrantType "" s
      let calls := calls ++ [Call.SetUAAGrantType ""]
      ⟨(), [], none, calls, s⟩
    else
      let s := actor.Config.SetUAAGrantType grantType s
      let calls := calls ++ [Call.SetUAAGrantType grantType]
      let s := actor.Config.SetUAAClientCredentials (credential credentials "client_id") "" s
      let calls := calls ++
        [Call.SetUAAClientCredentials (credential credentials "client_id") ""]
      ⟨(), [], none, calls, s⟩

/-- Modelled from the spec: `Authenticate(credentials, origin, grantType)` (section 4.4), the
body of `Actor.Authenticate` not being among the source files.  Before honoring a request for
the password grant type the stored grant type is read; if it is `client_credentials` the
attempt is refused with `PasswordGrantTypeLogoutRequiredError` before the identity provider
is called and nothing is persisted.  Otherwise the exchange takes place.  `Authenticate`
returns an error only, so `Run.warnings` is empty. -/
def Authenticate {σ : Type} (actor : AuthActor σ)
    (credentials : List (String × String)) (origin : String) (grantType : GrantType)
    (s : σ) : Run σ Unit :=
  if grantType = GrantTypePassword then
    let (stored, s) := actor.Config.UAAGrantType s
    let calls := [Call.UAAGrantType]
    if stored = GrantTypeClientCredentials then
      ⟨(), [], some Error.PasswordGrantTypeLogoutRequiredError, calls, s⟩
    else
      Authenticate.exchange actor credentials origin grantType calls s
  else
    Authenticate.exchange actor credentials origin grantType [] s

/-- A concrete session store and identity provider.  The state is the stored grant type
and the number of calls made so far; the identity provider answers with fixed tokens and
the given error. -/
def demoAuthActor (uaaErr : Option Error) : AuthActor (String × Nat) where
  Config :=
    { UAAGrantType := fun st => (st.1, (st.1, st.2 + 1))
      SetTokenInformation := fun _ _ _ st => (st.1, st.2 + 1)
      UnsetOrganizationAndSpaceInformation := fun st => (st.1, st.2 + 1)
      SetUAAGrantType := fun g st => (g, st.2 + 1)
      SetUAAClientCredentials := fun _ _ st => (st.1, st.2 + 1) }
  UAAClient :=
    { Authenticate := fun _ _ _ st =>
        (("some-access-token", "some-refresh-token", uaaErr), (st.1, st.2 + 1)) }

/-- Three backend routes in two spaces and on two domains. -/
def demoRoutes : List ccv3.Route :=
  [ ⟨"r1", "s1", "d1", "www", ""⟩, ⟨"r2", "s1", "d2", "api", "/v2"⟩,
    ⟨"r3", "s2", "d1", "app", ""⟩ ]

/-- A batch of spaces: `s1` comes twice, `s2` is missing and `s3` has an empty name. -/
def demoSpaces : List ccv3.Space := [⟨"s1", "old"⟩, ⟨"s3", ""⟩, ⟨"s1", "dev"⟩]

/-- A batch of domains: both `d1` and `d2` are there. -/
def demoDomains : List ccv3.Domain := [⟨"d1", "example.com"⟩, ⟨"d2", "example.org"⟩]

/-- The concrete actor whose backend answers every call without error, with `demoRoutes`,
`demoSpaces` and `demoDomains`. -/
def demoListActor : Actor Nat :=
  listActor demoRoutes demoSpaces demoDomains none none none none none none

/-- The concrete actor whose backend fails the route query. -/
def routesDownActor : Actor Nat :=
  listActor demoRoutes demoSpaces demoDomains none (some (Error.other "down")) none none none none

/-- The concrete actor whose backend fails the space lookup. -/
def spacesDownActor : Actor Nat :=
  listActor demoRoutes demoSpaces demoDomains none none (some (Error.other "down")) none none none

/-- The concrete actor whose backend fails the domain lookup. -/
def domainsDownActor : Actor Nat :=
  listActor demoRoutes demoSpaces demoDomains none none none (some (Error.other "down")) none none

/-- A concrete actor whose resolvers find an entity with empty GUID and name under every
name, and whose create call fails with an error of another kind and returns the zero route. -/
def zeroRouteActor : Actor Nat where
  CloudControllerClient :=
    { CreateRoute := fun _ n => ((⟨"", "", "", "", ""⟩, [], some (Error.other "boom")), n + 1)
      GetRoutes := fun _ n => (([], [], none), n + 1)
      GetSpaces := fun _ n => (([], [], none), n + 1)
      GetDomains := fun _ n => (([], [], none), n + 1)
      DeleteRoute := fun _ n => (("", [], none), n + 1)
      PollJob := fun _ n => (([], none), n + 1) }
  GetDomainByName := fun _ n => ((⟨"", ""⟩, [], none), n + 1)
  GetOrganizationByName := fun _ n => ((⟨"", ""⟩, [], none), n + 1)
  GetSpaceByNameAndOrganization := fun _ _ n => ((⟨"", ""⟩, [], none), n + 1)

/-! ## Strings and the path rewrite -/

theorem String.get_zero_mk_cons (c : Char) (cs : List Char) :
    (String.mk (c :: cs)).get 0 = c := by
  simp [String.get, String.utf8GetAux]

theorem String.slash_append_eq (r : String) : "/" ++ r = String.mk ('/' :: r.data) := by
  apply String.ext
  simp

theorem String.get_zero_slash_append (r : String) : ("/" ++ r).get 0 = '/' := by
  rw [String.slash_append_eq, String.get_zero_mk_cons]

theorem String.slash_append_ne_empty (r : String) : "/" ++ r ≠ "" := by
  intro h
  have h2 := congrArg String.data h
  simp at h2

theorem String.begins_with_slash_of_get (p : String) (h0 : p ≠ "") (h : p.get 0 = '/') :
    ∃ r, p = "/" ++ r := by
  rcases p with ⟨cs⟩
  cases cs with
  | nil => exact absurd rfl h0
  | cons c cs =>
    rw [String.get_zero_mk_cons] at h
    subst h
    exact ⟨String.mk cs, by apply String.ext; simp⟩

/-- The rewrite leaves alone the empty path and every path that begins with `/`. -/
theorem CreateRoute.path_of_rooted (p : String) (h : p = "" ∨ ∃ r, p = "/" ++ r) :
    CreateRoute.path p = p := by
  unfold CreateRoute.path
  rcases h with h | ⟨r, h⟩
  · simp [h]
  · subst h
    simp [String.get_zero_slash_append]

/-- The rewrite puts `/` in front of every other path. -/
theorem CreateRoute.path_of_not_rooted (p : String) (h : ¬ (p = "" ∨ ∃ r, p = "/" ++ r)) :
    CreateRoute.path p = "/" ++ p := by
  unfold CreateRoute.path
  have h0 : p ≠ "" := fun h0 => h (Or.inl h0)
  have h1 : p.get 0 ≠ '/' := fun h1 => h (Or.inr (String.begins_with_slash_of_get p h0 h1))
  simp [h0, h1]

/-- `DeleteRoute` rewrites the path with the same statement as `CreateRoute`. -/
theorem DeleteRoute.path_eq (p : String) : DeleteRoute.path p = CreateRoute.path p := rfl

/-- Rewriting a rewritten path changes nothing. -/
theorem CreateRoute.path_path (p : String) :
    CreateRoute.path (CreateRoute.path p) = CreateRoute.path p := by
  by_cases h : p = "" ∨ ∃ r, p = "/" ++ r
  · rw [CreateRoute.path_of_rooted p h, CreateRoute.path_of_rooted p h]
  · rw [CreateRoute.path_of_not_rooted p h]
    exact CreateRoute.path_of_rooted _ (Or.inr ⟨p, rfl⟩)

/-! ## The calls of the two methods -/

/-- With the three resolvers succeeding, `CreateRoute` makes four calls. -/
theorem CreateRoute.calls_of_resolved {σ : Type} (actor : Actor σ)
    (orgName spaceName domainName hostname path : String) (s s1 s2 s3 : σ)
    (domain : Domain) (org : Organization) (space : Space) (wd wo ws : Warnings)
    (hd : actor.GetDomainByName domainName s = ((domain, wd, none), s1))
    (ho : actor.GetOrganizationByName orgName s1 = ((org, wo, none), s2))
    (hs : actor.GetSpaceByNameAndOrganization spaceName org.GUID s2 = ((space, ws, none), s3)) :
    (CreateRoute actor orgName spaceName domainName hostname path s).calls
      = [Call.GetDomainByName domainName, Call.GetOrganizationByName orgName,
         Call.GetSpaceByNameAndOrganization spaceName org.GUID,
         Call.CreateRoute
           { GUID := "", SpaceGUID := space.GUID, DomainGUID := domain.GUID,
             Host := hostname, Path := CreateRoute.path path }] := by
  simp [CreateRoute, hd, ho, hs]
  split <;> rfl

/-- With the domain resolved, `DeleteRoute` queries the routes once, with three filters. -/
theorem DeleteRoute.getRoutes_calls {σ : Type} (actor : Actor σ)
    (domainName hostname path : String) (s s1 : σ) (domain : Domain) (wd : Warnings)
    (hd : actor.GetDomainByName domainName s = ((domain, wd, none), s1)) :
    (DeleteRoute actor domainName hostname path s).calls.filter Call.isGetRoutes
      = [Call.GetRoutes
          [ ⟨ccv3.QueryKey.DomainGUIDFilter, [domain.GUID]⟩,
            ⟨ccv3.QueryKey.HostnameFilter, [hostname]⟩,
            ⟨ccv3.QueryKey.PathFilter, [DeleteRoute.path path]⟩ ]] := by
  rcases hq : actor.CloudControllerClient.GetRoutes
      [ ⟨ccv3.QueryKey.DomainGUIDFilter, [domain.GUID]⟩,
        ⟨ccv3.QueryKey.HostnameFilter, [hostname]⟩,
        ⟨ccv3.QueryKey.PathFilter, [DeleteRoute.path path]⟩ ] s1 with ⟨⟨routes, wq, err⟩, s2⟩
  cases err with
  | some e => simp [DeleteRoute, hd, hq, Call.isGetRoutes]
  | none =>
    cases routes with
    | nil => simp [DeleteRoute, hd, hq, Call.isGetRoutes]
    | cons route0 rest =>
      rcases hx : actor.CloudControllerClient.DeleteRoute route0.GUID s2
        with ⟨⟨jobURL, wx, err⟩, s3⟩
      cases err with
      | some e => simp [DeleteRoute, hd, hq, hx, Call.isGetRoutes]
      | none => simp [DeleteRoute, hd, hq, hx, Call.isGetRoutes]

/-! ## CreateRoute -/

/-- Claim C1: when the three resolvers succeed and the create call fails with a
`RouteNotUniqueError` `e`, `CreateRoute` returns the empty Route, the error
`RouteAlreadyExistsError` whose `Err` is `e`, and the warnings of the domain, organization and
space resolvers followed by those of the create call. -/
theorem CreateRoute_not_unique {σ : Type} (actor : Actor σ)
    (orgName spaceName domainName hostname path : String) (s s1 s2 s3 s4 : σ)
    (domain : Domain) (org : Organization) (space : Space) (route : ccv3.Route)
    (wd wo ws wc : Warnings) (m : String)
    (hd : actor.GetDomainByName domainName s = ((domain, wd, none), s1))
    (ho : actor.GetOrganizationByName orgName s1 = ((org, wo, none), s2))
    (hs : actor.GetSpaceByNameAndOrganization spaceName org.GUID s2 = ((space, ws, none), s3))
    (hc : actor.CloudControllerClient.CreateRoute
        ⟨"", space.GUID, domain.GUID, hostname, CreateRoute.path path⟩ s3
      = ((route, wc, some (Error.RouteNotUniqueError m)), s4)) :
    (CreateRoute actor orgName spaceName domainName hostname path s).value = Route.zero ∧
    (CreateRoute actor orgName spaceName domainName hostname path s).err
      = some (Error.RouteAlreadyExistsError (Error.RouteNotUniqueError m)) ∧
    (CreateRoute actor orgName spaceName domainName hostname path s).warnings
      = wd ++ wo ++ ws ++ wc := by
  simp [CreateRoute, hd, ho, hs, hc]

theorem CreateRoute_not_unique_witness :
    (CreateRoute (demoActor none none none (some (Error.RouteNotUniqueError "taken")) [] none)
        "org" "space" "example.com" "www" "foo" 0).value = Route.zero ∧
    (CreateRoute (demoActor none none none (some (Error.RouteNotUniqueError "taken")) [] none)
        "org" "space" "example.com" "www" "foo" 0).err
      = some (Error.RouteAlreadyExistsError (Error.RouteNotUniqueError "taken")) ∧
    (CreateRoute (demoActor none none none (some (Error.RouteNotUniqueError "taken")) [] none)
        "org" "space" "example.com" "www" "foo" 0).warnings
      = ["domain-warning"] ++ ["org-warning"] ++ ["space-warning"] ++ ["create-warning"] :=
  CreateRoute_not_unique
    (demoActor none none none (some (Error.RouteNotUniqueError "taken")) [] none)
    "org" "space" "example.com" "www" "foo" 0 1 2 3 4
    ⟨"domain-guid", "example.com"⟩ ⟨"org-guid", "org"⟩ ⟨"space-guid", "space"⟩
    ⟨"route-guid", "space-guid", "domain-guid", "www", CreateRoute.path "foo"⟩
    ["domain-warning"] ["org-warning"] ["space-warning"] ["create-warning"] "taken"
    rfl rfl rfl rfl

/-- Claim C2: `CreateRoute` resolves domain, organization, space in that order and stops at
the first resolver that fails.  Whichever resolver is the first to return an error, the calls
made are exactly the resolvers up to and including it (no later resolver, no create call),
the Route is empty, the error is that resolver's error and the warnings are those of the
resolvers called, in call order. -/
theorem CreateRoute_short_circuit {σ : Type} (actor : Actor σ)
    (orgName spaceName domainName hostname path : String) (s : σ) :
    (∀ (domain : Domain) (wd : Warnings) (e : Error) (s1 : σ),
      actor.GetDomainByName domainName s = ((domain, wd, some e), s1) →
      CreateRoute actor orgName spaceName domainName hostname path s
        = ⟨Route.zero, wd, some e, [Call.GetDomainByName domainName], s1⟩) ∧
    (∀ (domain : Domain) (org : Organization) (wd wo : Warnings) (e : Error) (s1 s2 : σ),
      actor.GetDomainByName domainName s = ((domain, wd, none), s1) →
      actor.GetOrganizationByName orgName s1 = ((org, wo, some e), s2) →
      CreateRoute actor orgName spaceName domainName hostname path s
        = ⟨Route.zero, wd ++ wo, some e,
            [Call.GetDomainByName domainName, Call.GetOrganizationByName orgName], s2⟩) ∧
    (∀ (domain : Domain) (org : Organization) (space : Space) (wd wo ws : Warnings)
        (e : Error) (s1 s2 s3 : σ),
      actor.GetDomainByName domainName s = ((domain, wd, none), s1) →
      actor.GetOrganizationByName orgName s1 = ((org, wo, none), s2) →
      actor.GetSpaceByNameAndOrganization spaceName org.GUID s2 = ((space, ws, some e), s3) →
      CreateRoute actor orgName spaceName domainName hostname path s
        = ⟨Route.zero, wd ++ wo ++ ws, some e,
            [Call.GetDomainByName domainName, Call.GetOrganizationByName orgName,
             Call.GetSpaceByNameAndOrganization spaceName org.GUID], s3⟩) := by
  refine ⟨?_, ?_, ?_⟩
  · intro domain wd e s1 hd
    simp [CreateRoute, hd]
  · intro domain org wd wo e s1 s2 hd ho
    simp [CreateRoute, hd, ho]
  · intro domain org space wd wo ws e s1 s2 s3 hd ho hs
    simp [CreateRoute, hd, ho, hs]

theorem CreateRoute_short_circuit_witness :
    CreateRoute (demoActor (some (Error.other "no domain")) none none none [] none)
        "org" "space" "example.com" "www" "foo" 0
      = ⟨Route.zero, ["domain-warning"], some (Error.other "no domain"),
          [Call.GetDomainByName "example.com"], 1⟩ ∧
    CreateRoute (demoActor none (some (Error.other "no org")) none none [] none)
        "org" "space" "example.com" "www" "foo" 0
      = ⟨Route.zero, ["domain-warning"] ++ ["org-warning"], some (Error.other "no org"),
          [Call.GetDomainByName "example.com", Call.GetOrganizationByName "org"], 2⟩ ∧
    CreateRoute (demoActor none none (some (Error.other "no space")) none [] none)
        "org" "space" "example.com" "www" "foo" 0
      = ⟨Route.zero, ["domain-warning"] ++ ["org-warning"] ++ ["space-warning"],
          some (Error.other "no space"),
          [Call.GetDomainByName "example.com", Call.GetOrganizationByName "org",
           Call.GetSpaceByNameAndOrganization "space" "org-guid"], 3⟩ :=
  ⟨(CreateRoute_short_circuit
      (demoActor (some (Error.other "no domain")) none none none [] none)
      "org" "space" "example.com" "www" "foo" 0).1
      ⟨"domain-guid", "example.com"⟩ ["domain-warning"] (Error.other "no domain") 1 rfl,
   (CreateRoute_short_circuit
      (demoActor none (some (Error.other "no org")) none none [] none)
      "org" "space" "example.com" "www" "foo" 0).2.1
      ⟨"domain-guid", "example.com"⟩ ⟨"org-guid", "org"⟩ ["domain-warning"] ["org-warning"]
      (Error.other "no org") 1 2 rfl rfl,
   (CreateRoute_short_circuit
      (demoActor none none (some (Error.other "no space")) none [] none)
      "org" "space" "example.com" "www" "foo" 0).2.2
      ⟨"domain-guid", "example.com"⟩ ⟨"org-guid", "org"⟩ ⟨"space-guid", "space"⟩
      ["domain-warning"] ["org-warning"] ["space-warning"]
      (Error.other "no space") 1 2 3 rfl rfl rfl⟩

/-- Claim C3: when all three resolvers succeed, the space resolver is called with the
caller's space name and the GUID of the organization just resolved, and the create call is
made exactly once, with the resolved space GUID, the resolved domain GUID, the caller's
hostname and the normalized path: the path itself when it is empty or begins with `/`, and
`/` followed by the path otherwise.  These four calls are all the calls made. -/
theorem CreateRoute_calls {σ : Type} (actor : Actor σ)
    (orgName spaceName domainName hostname path : String) (s s1 s2 s3 : σ)
    (domain : Domain) (org : Organization) (space : Space) (wd wo ws : Warnings)
    (hd : actor.GetDomainByName domainName s = ((domain, wd, none), s1))
    (ho : actor.GetOrganizationByName orgName s1 = ((org, wo, none), s2))
    (hs : actor.GetSpaceByNameAndOrganization spaceName org.GUID s2 = ((space, ws, none), s3)) :
    ((path = "" ∨ ∃ r, path = "/" ++ r) →
      (CreateRoute actor orgName spaceName domainName hostname path s).calls
        = [Call.GetDomainByName domainName, Call.GetOrganizationByName orgName,
           Call.GetSpaceByNameAndOrganization spaceName org.GUID,
           Call.CreateRoute
             { GUID := "", SpaceGUID := space.GUID, DomainGUID := domain.GUID,
               Host := hostname, Path := path }]) ∧
    (¬ (path = "" ∨ ∃ r, path = "/" ++ r) →
      (CreateRoute actor orgName spaceName domainName hostname path s).calls
        = [Call.GetDomainByName domainName, Call.GetOrganizationByName orgName,
           Call.GetSpaceByNameAndOrganization spaceName org.GUID,
           Call.CreateRoute
             { GUID := "", SpaceGUID := space.GUID, DomainGUID := domain.GUID,
               Host := hostname, Path := "/" ++ path }]) := by
  have hc := CreateRoute.calls_of_resolved actor orgName spaceName domainName hostname path
    s s1 s2 s3 domain org space wd wo ws hd ho hs
  constructor
  · intro h
    have hp : CreateRoute.path path = path := by
      unfold CreateRoute.path
      rcases h with h | ⟨r, h⟩
      · simp [h]
      · subst h
        simp [String.get_zero_slash_append]
    rw [hp] at hc
    exact hc
  · intro h
    have h0 : path ≠ "" := fun h0 => h (Or.inl h0)
    have h1 : path.get 0 ≠ '/' := fun h1 =>
      h (Or.inr (String.begins_with_slash_of_get path h0 h1))
    have hp : CreateRoute.path path = "/" ++ path := by
      unfold CreateRoute.path
      simp [h0, h1]
    rw [hp] at hc
    exact hc

theorem CreateRoute_calls_witness :
    (CreateRoute (demoActor none none none none [] none) "org" "space" "example.com" "www" "/bar" 0).calls
      = [Call.GetDomainByName "example.com", Call.GetOrganizationByName "org",
         Call.GetSpaceByNameAndOrganization "space" "org-guid",
         Call.CreateRoute
           { GUID := "", SpaceGUID := "space-guid", DomainGUID := "domain-guid",
             Host := "www", Path := "/bar" }] ∧
    (CreateRoute (demoActor none none none none [] none) "org" "space" "example.com" "www" "foo" 0).calls
      = [Call.GetDomainByName "example.com", Call.GetOrganizationByName "org",
         Call.GetSpaceByNameAndOrganization "space" "org-guid",
         Call.CreateRoute
           { GUID := "", SpaceGUID := "space-guid", DomainGUID := "domain-guid",
             Host := "www", Path := "/foo" }] :=
  ⟨(CreateRoute_calls (demoActor none none none none [] none) "org" "space" "example.com" "www" "/bar" 0 1 2 3
      ⟨"domain-guid", "example.com"⟩ ⟨"org-guid", "org"⟩ ⟨"space-guid", "space"⟩
      ["domain-warning"] ["org-warning"] ["space-warning"] rfl rfl rfl).1
      (Or.inr ⟨"bar", by decide⟩),
   (CreateRoute_calls (demoActor none none none none [] none) "org" "space" "example.com" "www" "foo" 0 1 2 3
      ⟨"domain-guid", "example.com"⟩ ⟨"org-guid", "org"⟩ ⟨"space-guid", "space"⟩
      ["domain-warning"] ["org-warning"] ["space-warning"] rfl rfl rfl).2
      (by
        rintro (h | ⟨r, h⟩)
        · exact absurd h (by decide)
        · have h2 := congrArg (fun t : String => t.get 0) h
          simp only [String.get_zero_slash_append] at h2
          exact absurd h2 (by decide))⟩

/-- Claim C4: `CreateRoute` and `DeleteRoute` normalize the path alike, for every path `p`.
Whenever `CreateRoute` reaches its create call (the three resolvers succeed), the Path it
sends is `p` when `p` is empty or begins with `/`, and `/` followed by `p` otherwise.
Whenever `DeleteRoute` reaches its route query (the domain resolver succeeds), the single
value of its path filter is `p` when `p` is empty or begins with `/`, and `/` followed by
`p` otherwise. -/
theorem path_normalization_shared {σ : Type} (actor : Actor σ)
    (orgName spaceName domainName hostname p : String) (s : σ) :
    (∀ (domain : Domain) (org : Organization) (space : Space) (wd wo ws : Warnings)
        (s1 s2 s3 : σ),
      actor.GetDomainByName domainName s = ((domain, wd, none), s1) →
      actor.GetOrganizationByName orgName s1 = ((org, wo, none), s2) →
      actor.GetSpaceByNameAndOrganization spaceName org.GUID s2 = ((space, ws, none), s3) →
      ((p = "" ∨ ∃ r, p = "/" ++ r) →
        (CreateRoute actor orgName spaceName domainName hostname p s).calls
          = [Call.GetDomainByName domainName, Call.GetOrganizationByName orgName,
             Call.GetSpaceByNameAndOrganization spaceName org.GUID,
             Call.CreateRoute ⟨"", space.GUID, domain.GUID, hostname, p⟩]) ∧
      (¬ (p = "" ∨ ∃ r, p = "/" ++ r) →
        (CreateRoute actor orgName spaceName domainName hostname p s).calls
          = [Call.GetDomainByName domainName, Call.GetOrganizationByName orgName,
             Call.GetSpaceByNameAndOrganization spaceName org.GUID,
             Call.CreateRoute ⟨"", space.GUID, domain.GUID, hostname, "/" ++ p⟩])) ∧
    (∀ (domain : Domain) (wd : Warnings) (s1 : σ),
      actor.GetDomainByName domainName s = ((domain, wd, none), s1) →
      ((p = "" ∨ ∃ r, p = "/" ++ r) →
        (DeleteRoute actor domainName hostname p s).calls.filter Call.isGetRoutes
          = [Call.GetRoutes
              [ ⟨ccv3.QueryKey.DomainGUIDFilter, [domain.GUID]⟩,
                ⟨ccv3.QueryKey.HostnameFilter, [hostname]⟩,
                ⟨ccv3.QueryKey.PathFilter, [p]⟩ ]]) ∧
      (¬ (p = "" ∨ ∃ r, p = "/" ++ r) →
        (DeleteRoute actor domainName hostname p s).calls.filter Call.isGetRoutes
          = [Call.GetRoutes
              [ ⟨ccv3.QueryKey.DomainGUIDFilter, [domain.GUID]⟩,
                ⟨ccv3.QueryKey.HostnameFilter, [hostname]⟩,
                ⟨ccv3.QueryKey.PathFilter, ["/" ++ p]⟩ ]])) := by
  constructor
  · intro domain org space wd wo ws s1 s2 s3 hd ho hs
    have hc := CreateRoute.calls_of_resolved actor orgName spaceName domainName hostname p
      s s1 s2 s3 domain org space wd wo ws hd ho hs
    constructor
    · intro h
      have hp : CreateRoute.path p = p := by
        unfold CreateRoute.path
        rcases h with h | ⟨r, h⟩
        · simp [h]
        · subst h
          simp [String.get_zero_slash_append]
      rw [hp] at hc
      exact hc
    · intro h
      have h0 : p ≠ "" := fun h0 => h (Or.inl h0)
      have h1 : p.get 0 ≠ '/' := fun h1 =>
        h (Or.inr (String.begins_with_slash_of_get p h0 h1))
      have hp : CreateRoute.path p = "/" ++ p := by
        unfold CreateRoute.path
        simp [h0, h1]
      rw [hp] at hc
      exact hc
  · intro domain wd s1 hd
    have hq := DeleteRoute.getRoutes_calls actor domainName hostname p s s1 domain wd hd
    constructor
    · intro h
      have hp : DeleteRoute.path p = p := by
        unfold DeleteRoute.path
        rcases h with h | ⟨r, h⟩
        · simp [h]
        · subst h
          simp [String.get_zero_slash_append]
      rw [hp] at hq
      exact hq
    · intro h
      have h0 : p ≠ "" := fun h0 => h (Or.inl h0)
      have h1 : p.get 0 ≠ '/' := fun h1 =>
        h (Or.inr (String.begins_with_slash_of_get p h0 h1))
      have hp : DeleteRoute.path p = "/" ++ p := by
        unfold DeleteRoute.path
        simp [h0, h1]
      rw [hp] at hq
      exact hq

theorem path_normalization_shared_witness :
    ((CreateRoute (demoActor none none none none [] none) "org" "space" "example.com" "www" "/foo" 0).calls
        = [Call.GetDomainByName "example.com", Call.GetOrganizationByName "org",
           Call.GetSpaceByNameAndOrganization "space" "org-guid",
           Call.CreateRoute ⟨"", "space-guid", "domain-guid", "www", "/foo"⟩] ∧
      (CreateRoute (demoActor none none none none [] none) "org" "space" "example.com" "www" "foo" 0).calls
        = [Call.GetDomainByName "example.com", Call.GetOrganizationByName "org",
           Call.GetSpaceByNameAndOrganization "space" "org-guid",
           Call.CreateRoute ⟨"", "space-guid", "domain-guid", "www", "/foo"⟩]) ∧
    ((DeleteRoute (demoActor none (some (Error.other "no org")) none none [] none)
        "example.com" "www" "/foo" 0).calls.filter Call.isGetRoutes
        = [Call.GetRoutes
            [ ⟨ccv3.QueryKey.DomainGUIDFilter, ["domain-guid"]⟩,
              ⟨ccv3.QueryKey.HostnameFilter, ["www"]⟩,
              ⟨ccv3.QueryKey.PathFilter, ["/foo"]⟩ ]] ∧
      (DeleteRoute (demoActor none (some (Error.other "no org")) none none [] none)
        "example.com" "www" "foo" 0).calls.filter Call.isGetRoutes
        = [Call.GetRoutes
            [ ⟨ccv3.QueryKey.DomainGUIDFilter, ["domain-guid"]⟩,
              ⟨ccv3.QueryKey.HostnameFilter, ["www"]⟩,
              ⟨ccv3.QueryKey.PathFilter, ["/foo"]⟩ ]]) :=
  ⟨⟨((path_normalization_shared (demoActor none none none none [] none) "org" "space" "example.com" "www" "/foo" 0).1
        ⟨"domain-guid", "example.com"⟩ ⟨"org-guid", "org"⟩ ⟨"space-guid", "space"⟩
        ["domain-warning"] ["org-warning"] ["space-warning"] 1 2 3 rfl rfl rfl).1
        (Or.inr ⟨"foo", by decide⟩),
     ((path_normalization_shared (demoActor none none none none [] none) "org" "space" "example.com" "www" "foo" 0).1
        ⟨"domain-guid", "example.com"⟩ ⟨"org-guid", "org"⟩ ⟨"space-guid", "space"⟩
        ["domain-warning"] ["org-warning"] ["space-warning"] 1 2 3 rfl rfl rfl).2
        (by
          rintro (h | ⟨r, h⟩)
          · exact absurd h (by decide)
          · have h2 := congrArg (fun t : String => t.get 0) h
            simp only [String.get_zero_slash_append] at h2
            exact absurd h2 (by decide))⟩,
   ⟨((path_normalization_shared
        (demoActor none (some (Error.other "no org")) none none [] none)
        "org" "space" "example.com" "www" "/foo" 0).2
        ⟨"domain-guid", "example.com"⟩ ["domain-warning"] 1 rfl).1
        (Or.inr ⟨"foo", by decide⟩),
     ((path_normalization_shared
        (demoActor none (some (Error.other "no org")) none none [] none)
        "org" "space" "example.com" "www" "foo" 0).2
        ⟨"domain-guid", "example.com"⟩ ["domain-warning"] 1 rfl).2
        (by
          rintro (h | ⟨r, h⟩)
          · exact absurd h (by decide)
          · have h2 := congrArg (fun t : String => t.get 0) h
            simp only [String.get_zero_slash_append] at h2
            exact absurd h2 (by decide))⟩⟩

/-- Claim C5: the path normalization of `CreateRoute` and of `DeleteRoute` is idempotent:
normalizing a normalized path returns it unchanged, and the empty path normalizes to the
empty path. -/
theorem path_normalization_idempotent (p : String) :
    CreateRoute.path (CreateRoute.path p) = CreateRoute.path p ∧
    DeleteRoute.path (DeleteRoute.path p) = DeleteRoute.path p ∧
    CreateRoute.path "" = "" ∧ DeleteRoute.path "" = "" := by
  refine ⟨CreateRoute.path_path p, ?_, ?_, ?_⟩
  · simp only [DeleteRoute.path_eq]
    exact CreateRoute.path_path p
  · exact CreateRoute.path_of_rooted "" (Or.inl rfl)
  · rw [DeleteRoute.path_eq]
    exact CreateRoute.path_of_rooted "" (Or.inl rfl)

/-- Claim C6: when the resolvers and the create call all succeed, `CreateRoute` returns no
error and a Route whose GUID, Host, Path, SpaceGUID and DomainGUID are those of the route the
backend returned, and whose SpaceName and DomainName are the names the caller supplied. -/
theorem CreateRoute_success {σ : Type} (actor : Actor σ)
    (orgName spaceName domainName hostname path : String) (s s1 s2 s3 s4 : σ)
    (domain : Domain) (org : Organization) (space : Space) (route : ccv3.Route)
    (wd wo ws wc : Warnings)
    (hd : actor.GetDomainByName domainName s = ((domain, wd, none), s1))
    (ho : actor.GetOrganizationByName orgName s1 = ((org, wo, none), s2))
    (hs : actor.GetSpaceByNameAndOrganization spaceName org.GUID s2 = ((space, ws, none), s3))
    (hc : actor.CloudControllerClient.CreateRoute
        ⟨"", space.GUID, domain.GUID, hostname, CreateRoute.path path⟩ s3
      = ((route, wc, none), s4)) :
    (CreateRoute actor orgName spaceName domainName hostname path s).err = none ∧
    (CreateRoute actor orgName spaceName domainName hostname path s).value
      = { GUID := route.GUID, Host := route.Host, Path := route.Path,
          SpaceGUID := route.SpaceGUID, DomainGUID := route.DomainGUID,
          SpaceName := spaceName, DomainName := domainName } := by
  simp [CreateRoute, hd, ho, hs, hc]

theorem CreateRoute_success_witness :
    (CreateRoute (demoActor none none none none [] none)
        "org" "space" "example.com" "www" "foo" 0).err = none ∧
    (CreateRoute (demoActor none none none none [] none)
        "org" "space" "example.com" "www" "foo" 0).value
      = { GUID := "route-guid", Host := "www", Path := "/foo",
          SpaceGUID := "space-guid", DomainGUID := "domain-guid",
          SpaceName := "space", DomainName := "example.com" } :=
  CreateRoute_success (demoActor none none none none [] none)
    "org" "space" "example.com" "www" "foo" 0 1 2 3 4
    ⟨"domain-guid", "example.com"⟩ ⟨"org-guid", "org"⟩ ⟨"space-guid", "space"⟩
    ⟨"route-guid", "space-guid", "domain-guid", "www", "/foo"⟩
    ["domain-warning"] ["org-warning"] ["space-warning"] ["create-warning"]
    rfl rfl rfl rfl

/-- Claim C7: when the resolvers succeed and the create call fails with an error `e` that is
not a `RouteNotUniqueError`, `CreateRoute` returns exactly `e`, with the warnings of the
domain, organization and space resolvers and of the create call, in that order. -/
theorem CreateRoute_other_error {σ : Type} (actor : Actor σ)
    (orgName spaceName domainName hostname path : String) (s s1 s2 s3 s4 : σ)
    (domain : Domain) (org : Organization) (space : Space) (route : ccv3.Route)
    (wd wo ws wc : Warnings) (e : Error)
    (hd : actor.GetDomainByName domainName s = ((domain, wd, none), s1))
    (ho : actor.GetOrganizationByName orgName s1 = ((org, wo, none), s2))
    (hs : actor.GetSpaceByNameAndOrganization spaceName org.GUID s2 = ((space, ws, none), s3))
    (hc : actor.CloudControllerClient.CreateRoute
        ⟨"", space.GUID, domain.GUID, hostname, CreateRoute.path path⟩ s3
      = ((route, wc, some e), s4))
    (he : ∀ m, e ≠ Error.RouteNotUniqueError m) :
    (CreateRoute actor orgName spaceName domainName hostname path s).err = some e ∧
    (CreateRoute actor orgName spaceName domainName hostname path s).warnings
      = wd ++ wo ++ ws ++ wc := by
  cases e with
  | RouteNotUniqueError m => exact absurd rfl (he m)
  | RouteAlreadyExistsError e2 => simp [CreateRoute, hd, ho, hs, hc]
  | RouteNotFoundError d h p => simp [CreateRoute, hd, ho, hs, hc]
  | PasswordGrantTypeLogoutRequiredError => simp [CreateRoute, hd, ho, hs, hc]
  | other d => simp [CreateRoute, hd, ho, hs, hc]

theorem CreateRoute_other_error_witness :
    (CreateRoute (demoActor none none none (some (Error.other "boom")) [] none)
        "org" "space" "example.com" "www" "foo" 0).err = some (Error.other "boom") ∧
    (CreateRoute (demoActor none none none (some (Error.other "boom")) [] none)
        "org" "space" "example.com" "www" "foo" 0).warnings
      = ["domain-warning"] ++ ["org-warning"] ++ ["space-warning"] ++ ["create-warning"] :=
  CreateRoute_other_error (demoActor none none none (some (Error.other "boom")) [] none)
    "org" "space" "example.com" "www" "foo" 0 1 2 3 4
    ⟨"domain-guid", "example.com"⟩ ⟨"org-guid", "org"⟩ ⟨"space-guid", "space"⟩
    ⟨"route-guid", "space-guid", "domain-guid", "www", "/foo"⟩
    ["domain-warning"] ["org-warning"] ["space-warning"] ["create-warning"]
    (Error.other "boom") rfl rfl rfl rfl (fun _ h => Error.noConfusion h)

/-! ## DeleteRoute -/

/-- Claim C8: when domain resolution succeeds and the route query succeeds with zero routes,
`DeleteRoute` returns a `RouteNotFoundError` carrying the domain name, the host and the path,
makes no deletion call and no poll call (its calls are the resolver and the query), and
returns the resolver's warnings followed by the query's warnings.  In particular, for
`DeleteRoute("example.com", "www", "/foo")` the error is
`RouteNotFoundError{DomainName: "example.com", Host: "www", Path: "/foo"}`. -/
theorem DeleteRoute_not_found {σ : Type} (actor : Actor σ)
    (domainName hostname path : String) (s s1 s2 : σ) (domain : Domain) (wd wq : Warnings)
    (hd : actor.GetDomainByName domainName s = ((domain, wd, none), s1))
    (hq : actor.CloudControllerClient.GetRoutes
        [ ⟨ccv3.QueryKey.DomainGUIDFilter, [domain.GUID]⟩,
          ⟨ccv3.QueryKey.HostnameFilter, [hostname]⟩,
          ⟨ccv3.QueryKey.PathFilter, [DeleteRoute.path path]⟩ ] s1 = (([], wq, none), s2)) :
    DeleteRoute actor domainName hostname path s
      = ⟨(), wd ++ wq,
          some (Error.RouteNotFoundError domainName hostname (DeleteRoute.path path)),
          [Call.GetDomainByName domainName,
           Call.GetRoutes
            [ ⟨ccv3.QueryKey.DomainGUIDFilter, [domain.GUID]⟩,
              ⟨ccv3.QueryKey.HostnameFilter, [hostname]⟩,
              ⟨ccv3.QueryKey.PathFilter, [DeleteRoute.path path]⟩ ]], s2⟩ ∧
    (domainName = "example.com" → hostname = "www" → path = "/foo" →
      (DeleteRoute actor domainName hostname path s).err
        = some (Error.RouteNotFoundError "example.com" "www" "/foo")) := by
  have h : DeleteRoute actor domainName hostname path s
      = ⟨(), wd ++ wq,
          some (Error.RouteNotFoundError domainName hostname (DeleteRoute.path path)),
          [Call.GetDomainByName domainName,
           Call.GetRoutes
            [ ⟨ccv3.QueryKey.DomainGUIDFilter, [domain.GUID]⟩,
              ⟨ccv3.QueryKey.HostnameFilter, [hostname]⟩,
              ⟨ccv3.QueryKey.PathFilter, [DeleteRoute.path path]⟩ ]], s2⟩ := by
    simp [DeleteRoute, hd, hq]
  refine ⟨h, ?_⟩
  intro h1 h2 h3
  rw [h]
  subst h1 h2 h3
  rfl

theorem DeleteRoute_not_found_witness :
    DeleteRoute (demoActor none none none none [] none) "example.com" "www" "/foo" 0
      = ⟨(), ["domain-warning"] ++ ["routes-warning"],
          some (Error.RouteNotFoundError "example.com" "www" (DeleteRoute.path "/foo")),
          [Call.GetDomainByName "example.com",
           Call.GetRoutes
            [ ⟨ccv3.QueryKey.DomainGUIDFilter, ["domain-guid"]⟩,
              ⟨ccv3.QueryKey.HostnameFilter, ["www"]⟩,
              ⟨ccv3.QueryKey.PathFilter, [DeleteRoute.path "/foo"]⟩ ]], 2⟩ ∧
    (DeleteRoute (demoActor none none none none [] none) "example.com" "www" "/foo" 0).err
        = some (Error.RouteNotFoundError "example.com" "www" "/foo") :=
  ⟨(DeleteRoute_not_found (demoActor none none none none [] none)
      "example.com" "www" "/foo" 0 1 2 ⟨"domain-guid", "example.com"⟩
      ["domain-warning"] ["routes-warning"] rfl rfl).1,
   (DeleteRoute_not_found (demoActor none none none none [] none)
      "example.com" "www" "/foo" 0 1 2 ⟨"domain-guid", "example.com"⟩
      ["domain-warning"] ["routes-warning"] rfl rfl).2 rfl rfl rfl⟩

/-- Claim C9: when domain resolution succeeds, `DeleteRoute` issues the route query exactly
once, with exactly three filters in this order: the domain-GUID filter with the resolved
domain's GUID, the hostname filter with the caller's hostname, and the path filter with the
normalized path, each as a single value.  The normalized path is the path itself when it is
empty or begins with `/`, and `/` followed by the path otherwise. -/
theorem DeleteRoute_query {σ : Type} (actor : Actor σ)
    (domainName hostname path : String) (s s1 : σ) (domain : Domain) (wd : Warnings)
    (hd : actor.GetDomainByName domainName s = ((domain, wd, none), s1)) :
    ((path = "" ∨ ∃ r, path = "/" ++ r) →
      (DeleteRoute actor domainName hostname path s).calls.filter Call.isGetRoutes
        = [Call.GetRoutes
            [ ⟨ccv3.QueryKey.DomainGUIDFilter, [domain.GUID]⟩,
              ⟨ccv3.QueryKey.HostnameFilter, [hostname]⟩,
              ⟨ccv3.QueryKey.PathFilter, [path]⟩ ]]) ∧
    (¬ (path = "" ∨ ∃ r, path = "/" ++ r) →
      (DeleteRoute actor domainName hostname path s).calls.filter Call.isGetRoutes
        = [Call.GetRoutes
            [ ⟨ccv3.QueryKey.DomainGUIDFilter, [domain.GUID]⟩,
              ⟨ccv3.QueryKey.HostnameFilter, [hostname]⟩,
              ⟨ccv3.QueryKey.PathFilter, ["/" ++ path]⟩ ]]) := by
  have hq := DeleteRoute.getRoutes_calls actor domainName hostname path s s1 domain wd hd
  constructor
  · intro h
    have hp : DeleteRoute.path path = path := by
      unfold DeleteRoute.path
      rcases h with h | ⟨r, h⟩
      · simp [h]
      · subst h
        simp [String.get_zero_slash_append]
    rw [hp] at hq
    exact hq
  · intro h
    have h0 : path ≠ "" := fun h0 => h (Or.inl h0)
    have h1 : path.get 0 ≠ '/' := fun h1 =>
      h (Or.inr (String.begins_with_slash_of_get path h0 h1))
    have hp : DeleteRoute.path path = "/" ++ path := by
      unfold DeleteRoute.path
      simp [h0, h1]
    rw [hp] at hq
    exact hq

theorem DeleteRoute_query_witness :
    (DeleteRoute (demoActor none none none none [⟨"r1", "s", "d", "www", "/foo"⟩] none) "example.com" "www" "" 0).calls.filter Call.isGetRoutes
      = [Call.GetRoutes
          [ ⟨ccv3.QueryKey.DomainGUIDFilter, ["domain-guid"]⟩,
            ⟨ccv3.QueryKey.HostnameFilter, ["www"]⟩,
            ⟨ccv3.QueryKey.PathFilter, [""]⟩ ]] ∧
    (DeleteRoute (demoActor none none none none [⟨"r1", "s", "d", "www", "/foo"⟩] none) "example.com" "www" "foo" 0).calls.filter Call.isGetRoutes
      = [Call.GetRoutes
          [ ⟨ccv3.QueryKey.DomainGUIDFilter, ["domain-guid"]⟩,
            ⟨ccv3.QueryKey.HostnameFilter, ["www"]⟩,
            ⟨ccv3.QueryKey.PathFilter, ["/foo"]⟩ ]] :=
  ⟨(DeleteRoute_query (demoActor none none none none [⟨"r1", "s", "d", "www", "/foo"⟩] none) "example.com" "www" "" 0 1
      ⟨"domain-guid", "example.com"⟩ ["domain-warning"] rfl).1 (Or.inl rfl),
   (DeleteRoute_query (demoActor none none none none [⟨"r1", "s", "d", "www", "/foo"⟩] none) "example.com" "www" "foo" 0 1
      ⟨"domain-guid", "example.com"⟩ ["domain-warning"] rfl).2
      (by
        rintro (h | ⟨r, h⟩)
        · exact absurd h (by decide)
        · have h2 := congrArg (fun t : String => t.get 0) h
          simp only [String.get_zero_slash_append] at h2
          exact absurd h2 (by decide))⟩

/-- Claim C10: when the deletion request succeeds and returns the job handle `j`, the poll
call is made exactly once, with exactly `j`, and the error `DeleteRoute` returns is exactly
the error the poll call returned: nil when polling succeeds, the poll's own error,
unwrapped, when it fails. -/
theorem DeleteRoute_poll {σ : Type} (actor : Actor σ)
    (domainName hostname path : String) (s s1 s2 s3 s4 : σ) (domain : Domain)
    (route0 : ccv3.Route) (rest : List ccv3.Route) (j : ccv3.JobURL)
    (wd wq wx wp : Warnings) (pollErr : Option Error)
    (hd : actor.GetDomainByName domainName s = ((domain, wd, none), s1))
    (hq : actor.CloudControllerClient.GetRoutes
        [ ⟨ccv3.QueryKey.DomainGUIDFilter, [domain.GUID]⟩,
          ⟨ccv3.QueryKey.HostnameFilter, [hostname]⟩,
          ⟨ccv3.QueryKey.PathFilter, [DeleteRoute.path path]⟩ ] s1
      = ((route0 :: rest, wq, none), s2))
    (hx : actor.CloudControllerClient.DeleteRoute route0.GUID s2 = ((j, wx, none), s3))
    (hp : actor.CloudControllerClient.PollJob j s3 = ((wp, pollErr), s4)) :
    (DeleteRoute actor domainName hostname path s).calls
      = [Call.GetDomainByName domainName,
         Call.GetRoutes
          [ ⟨ccv3.QueryKey.DomainGUIDFilter, [domain.GUID]⟩,
            ⟨ccv3.QueryKey.HostnameFilter, [hostname]⟩,
            ⟨ccv3.QueryKey.PathFilter, [DeleteRoute.path path]⟩ ],
         Call.DeleteRoute route0.GUID, Call.PollJob j] ∧
    (DeleteRoute actor domainName hostname path s).err = pollErr := by
  simp [DeleteRoute, hd, hq, hx, hp]

theorem DeleteRoute_poll_witness :
    ((DeleteRoute (demoActor none none none none [⟨"r1", "s", "d", "www", "/foo"⟩]
          (some (Error.other "timeout"))) "example.com" "www" "foo" 0).calls
      = [Call.GetDomainByName "example.com",
         Call.GetRoutes
          [ ⟨ccv3.QueryKey.DomainGUIDFilter, ["domain-guid"]⟩,
            ⟨ccv3.QueryKey.HostnameFilter, ["www"]⟩,
            ⟨ccv3.QueryKey.PathFilter, [DeleteRoute.path "foo"]⟩ ],
         Call.DeleteRoute "r1", Call.PollJob "job-url"] ∧
    (DeleteRoute (demoActor none none none none [⟨"r1", "s", "d", "www", "/foo"⟩]
          (some (Error.other "timeout"))) "example.com" "www" "foo" 0).err
      = some (Error.other "timeout")) ∧
    ((DeleteRoute (demoActor none none none none [⟨"r1", "s", "d", "www", "/foo"⟩] none)
          "example.com" "www" "foo" 0).calls
      = [Call.GetDomainByName "example.com",
         Call.GetRoutes
          [ ⟨ccv3.QueryKey.DomainGUIDFilter, ["domain-guid"]⟩,
            ⟨ccv3.QueryKey.HostnameFilter, ["www"]⟩,
            ⟨ccv3.QueryKey.PathFilter, [DeleteRoute.path "foo"]⟩ ],
         Call.DeleteRoute "r1", Call.PollJob "job-url"] ∧
    (DeleteRoute (demoActor none none none none [⟨"r1", "s", "d", "www", "/foo"⟩] none)
          "example.com" "www" "foo" 0).err = none) :=
  ⟨DeleteRoute_poll (demoActor none none none none [⟨"r1", "s", "d", "www", "/foo"⟩]
      (some (Error.other "timeout"))) "example.com" "www" "foo" 0 1 2 3 4
      ⟨"domain-guid", "example.com"⟩ ⟨"r1", "s", "d", "www", "/foo"⟩ [] "job-url"
      ["domain-warning"] ["routes-warning"] ["delete-warning"] ["poll-warning"]
      (some (Error.other "timeout")) rfl rfl rfl rfl,
   DeleteRoute_poll (demoActor none none none none [⟨"r1", "s", "d", "www", "/foo"⟩] none)
      "example.com" "www" "foo" 0 1 2 3 4
      ⟨"domain-guid", "example.com"⟩ ⟨"r1", "s", "d", "www", "/foo"⟩ [] "job-url"
      ["domain-warning"] ["routes-warning"] ["delete-warning"] ["poll-warning"]
      none rfl rfl rfl rfl⟩

/-! ## The loops of the two listings -/

theorem GoMap.has_set {ν : Type} (m : GoMap ν) (k : String) (v : ν) (x : String) :
    (m.set k v).has x = true ↔ x = k ∨ m.has x = true := by
  unfold GoMap.has GoMap.set
  by_cases h : x = k <;> simp [h]

/-- Filtering the first occurrences by "not yet seen", when `g` has been seen. -/
theorem firstOccurrences_cons_filter_seen (g : String) (gs acc : List String) (hm : g ∈ acc) :
    (firstOccurrences (g :: gs)).filter (fun x => decide (x ∉ acc))
      = (firstOccurrences gs).filter (fun x => decide (x ∉ acc)) := by
  simp only [firstOccurrences, List.filter_cons, List.filter_filter]
  have h1 : decide (g ∉ acc) = false := by simpa using hm
  rw [h1]
  simp only [Bool.false_eq_true, if_false]
  apply List.filter_congr
  intro x _
  by_cases hx : x ∈ acc
  · simp [hx]
  · have hne : x ≠ g := fun hxg => hx (hxg ▸ hm)
    simp [hx, hne]

/-- Filtering the first occurrences by "not yet seen", when `g` is new. -/
theorem firstOccurrences_cons_filter_new (g : String) (gs acc : List String) (hm : g ∉ acc) :
    (firstOccurrences (g :: gs)).filter (fun x => decide (x ∉ acc))
      = g :: (firstOccurrences gs).filter (fun x => decide (x ∉ acc ++ [g])) := by
  simp only [firstOccurrences, List.filter_cons, List.filter_filter]
  have h1 : decide (g ∉ acc) = true := by simpa using hm
  rw [h1]
  simp only [if_true]
  congr 1
  apply List.filter_congr
  intro x _
  by_cases hx : x ∈ acc <;> by_cases hxg : x = g <;> simp [hx, hxg]

/-- The loop of `GetRoutesBySpace`, started from any set and list that agree, appends the
first occurrences of the domain GUIDs not yet in the list. -/
theorem GetRoutesBySpace.domainGUIDs_loop (routes : List ccv3.Route) :
    ∀ (set : GoMap Unit) (acc : List String), (∀ g, set.has g = true ↔ g ∈ acc) →
    (routes.foldl
      (fun (st : GoMap Unit × List String) (route : ccv3.Route) =>
        if st.1.has route.DomainGUID then st
        else (st.1.set route.DomainGUID (), st.2 ++ [route.DomainGUID]))
      (set, acc)).2
      = acc ++ (firstOccurrences (routes.map (fun r => r.DomainGUID))).filter
          (fun x => decide (x ∉ acc)) := by
  induction routes with
  | nil => intro set acc _; simp [firstOccurrences]
  | cons r rs ih =>
    intro set acc h
    simp only [List.foldl_cons, List.map_cons]
    by_cases hm : r.DomainGUID ∈ acc
    · rw [if_pos ((h _).2 hm), ih set acc h, firstOccurrences_cons_filter_seen _ _ _ hm]
    · have hn : ¬ (set.has r.DomainGUID = true) := fun hh => hm ((h _).1 hh)
      rw [if_neg hn, firstOccurrences_cons_filter_new _ _ _ hm]
      rw [ih (set.set r.DomainGUID ()) (acc ++ [r.DomainGUID])]
      · simp
      · intro g
        rw [GoMap.has_set, h g]
        simp only [List.mem_append, List.mem_singleton]
        exact Or.comm

/-- The domain GUIDs that `GetRoutesBySpace` looks up are the first occurrences. -/
theorem GetRoutesBySpace.domainGUIDs_eq (routes : List ccv3.Route) :
    GetRoutesBySpace.domainGUIDs routes
      = firstOccurrences (routes.map (fun r => r.DomainGUID)) := by
  unfold GetRoutesBySpace.domainGUIDs
  rw [GetRoutesBySpace.domainGUIDs_loop routes GoMap.empty [] (by simp [GoMap.has, GoMap.empty])]
  simp

/-- The loop of `GetRoutesByOrg`, started from sets and queries that agree, appends to each
query the first occurrences of the GUIDs not yet among its values. -/
theorem GetRoutesByOrg.queries_loop (routes : List ccv3.Route) :
    ∀ (ss ds : GoMap Unit) (sq dq : ccv3.Query),
    (∀ g, ss.has g = true ↔ g ∈ sq.Values) → (∀ g, ds.has g = true ↔ g ∈ dq.Values) →
    (routes.foldl GetRoutesByOrg.loopBody (ss, ds, sq, dq)).2.2.1
      = ⟨sq.Key, sq.Values ++ (firstOccurrences (routes.map (fun r => r.SpaceGUID))).filter
          (fun x => decide (x ∉ sq.Values))⟩ ∧
    (routes.foldl GetRoutesByOrg.loopBody (ss, ds, sq, dq)).2.2.2
      = ⟨dq.Key, dq.Values ++ (firstOccurrences (routes.map (fun r => r.DomainGUID))).filter
          (fun x => decide (x ∉ dq.Values))⟩ := by
  induction routes with
  | nil => intro ss ds sq dq _ _; simp [firstOccurrences]
  | cons r rs ih =>
    intro ss ds sq dq hs hd
    simp only [List.foldl_cons, List.map_cons]
    have hset : ∀ (m : GoMap Unit) (vs : List String) (k : String),
        (∀ g, m.has g = true ↔ g ∈ vs) → ∀ g, (m.set k ()).has g = true ↔ g ∈ vs ++ [k] := by
      intro m vs k h g
      rw [GoMap.has_set, h g]
      simp only [List.mem_append, List.mem_singleton]
      exact Or.comm
    by_cases hms : r.SpaceGUID ∈ sq.Values <;> by_cases hmd : r.DomainGUID ∈ dq.Values
    · have e : GetRoutesByOrg.loopBody (ss, ds, sq, dq) r = (ss, ds, sq, dq) := by
        simp [GetRoutesByOrg.loopBody, (hs _).2 hms, (hd _).2 hmd]
      rw [e, firstOccurrences_cons_filter_seen _ _ _ hms,
        firstOccurrences_cons_filter_seen _ _ _ hmd]
      exact ih ss ds sq dq hs hd
    · have hn : ¬ (ds.has r.DomainGUID = true) := fun hh => hmd ((hd _).1 hh)
      have e : GetRoutesByOrg.loopBody (ss, ds, sq, dq) r
          = (ss, ds.set r.DomainGUID (), sq, ⟨dq.Key, dq.Values ++ [r.DomainGUID]⟩) := by
        simp [GetRoutesByOrg.loopBody, (hs _).2 hms, hn]
      rw [e, firstOccurrences_cons_filter_seen _ _ _ hms,
        firstOccurrences_cons_filter_new _ _ _ hmd]
      have h := ih ss (ds.set r.DomainGUID ()) sq ⟨dq.Key, dq.Values ++ [r.DomainGUID]⟩ hs
        (hset ds dq.Values r.DomainGUID hd)
      refine ⟨h.1, ?_⟩
      rw [h.2]
      simp
    · have hn : ¬ (ss.has r.SpaceGUID = true) := fun hh => hms ((hs _).1 hh)
      have e : GetRoutesByOrg.loopBody (ss, ds, sq, dq) r
          = (ss.set r.SpaceGUID (), ds, ⟨sq.Key, sq.Values ++ [r.SpaceGUID]⟩, dq) := by
        simp [GetRoutesByOrg.loopBody, (hd _).2 hmd, hn]
      rw [e, firstOccurrences_cons_filter_new _ _ _ hms,
        firstOccurrences_cons_filter_seen _ _ _ hmd]
      have h := ih (ss.set r.SpaceGUID ()) ds ⟨sq.Key, sq.Values ++ [r.SpaceGUID]⟩ dq
        (hset ss sq.Values r.SpaceGUID hs) hd
      refine ⟨?_, h.2⟩
      rw [h.1]
      simp
    · have hn1 : ¬ (ss.has r.SpaceGUID = true) := fun hh => hms ((hs _).1 hh)
      have hn2 : ¬ (ds.has r.DomainGUID = true) := fun hh => hmd ((hd _).1 hh)
      have e : GetRoutesByOrg.loopBody (ss, ds, sq, dq) r
          = (ss.set r.SpaceGUID (), ds.set r.DomainGUID (),
              ⟨sq.Key, sq.Values ++ [r.SpaceGUID]⟩, ⟨dq.Key, dq.Values ++ [r.DomainGUID]⟩) := by
        simp [GetRoutesByOrg.loopBody, hn1, hn2]
      rw [e, firstOccurrences_cons_filter_new _ _ _ hms,
        firstOccurrences_cons_filter_new _ _ _ hmd]
      have h := ih (ss.set r.SpaceGUID ()) (ds.set r.DomainGUID ())
        ⟨sq.Key, sq.Values ++ [r.SpaceGUID]⟩ ⟨dq.Key, dq.Values ++ [r.DomainGUID]⟩
        (hset ss sq.Values r.SpaceGUID hs) (hset ds dq.Values r.DomainGUID hd)
      constructor
      · rw [h.1]; simp
      · rw [h.2]; simp

/-- The two queries that `GetRoutesByOrg` issues hold the first occurrences of the space
GUIDs and of the domain GUIDs, under the key `GUIDFilter`. -/
theorem GetRoutesByOrg.queries_eq (routes : List ccv3.Route) :
    GetRoutesByOrg.queries routes
      = (⟨ccv3.QueryKey.GUIDFilter, firstOccurrences (routes.map (fun r => r.SpaceGUID))⟩,
         ⟨ccv3.QueryKey.GUIDFilter, firstOccurrences (routes.map (fun r => r.DomainGUID))⟩) := by
  have h := GetRoutesByOrg.queries_loop routes GoMap.empty GoMap.empty
    ⟨ccv3.QueryKey.GUIDFilter, []⟩ ⟨ccv3.QueryKey.GUIDFilter, []⟩
    (by simp [GoMap.has, GoMap.empty]) (by simp [GoMap.has, GoMap.empty])
  unfold GetRoutesByOrg.queries
  simp only [h.1, h.2]
  simp

/-- The first occurrences hold no value twice. -/
theorem firstOccurrences_nodup (l : List String) : (firstOccurrences l).Nodup := by
  induction l with
  | nil => simp [firstOccurrences]
  | cons g gs ih =>
    simp only [firstOccurrences, List.nodup_cons]
    exact ⟨by simp, ih.filter _⟩

/-- The first occurrences hold exactly the values of the list. -/
theorem mem_firstOccurrences (l : List String) (x : String) :
    x ∈ firstOccurrences l ↔ x ∈ l := by
  induction l with
  | nil => simp [firstOccurrences]
  | cons g gs ih =>
    simp only [firstOccurrences, List.mem_cons, List.mem_filter, ih]
    by_cases h : x = g <;> simp [h]

/-- The first occurrences are as many as the distinct values of the list. -/
theorem length_firstOccurrences (l : List String) :
    (firstOccurrences l).length = l.toFinset.card := by
  rw [← List.toFinset_card_of_nodup (firstOccurrences_nodup l)]
  congr 1
  ext x
  simp [mem_firstOccurrences]

/-- After the loop that fills `spacesByGUID`, a key holds the last space with that GUID, or
what it held before when there is none. -/
theorem spacesByGUID_loop (spaces : List ccv3.Space) :
    ∀ (m : GoMap ccv3.Space) (k : String),
    (spaces.foldl (fun m space => m.set space.GUID space) m) k
      = ((spaces.filter (fun space => space.GUID = k)).getLast?).or (m k) := by
  induction spaces with
  | nil => intro m k; simp
  | cons a l ih =>
    intro m k
    simp only [List.foldl_cons]
    rw [ih]
    by_cases h : a.GUID = k
    · have hk : (m.set a.GUID a) k = some a := by simp [GoMap.set, h]
      rw [hk, List.filter_cons_of_pos (by simpa using h), List.getLast?_cons]
      cases (List.filter (fun space => decide (space.GUID = k)) l).getLast? <;> simp
    · have hk : (m.set a.GUID a) k = m k := by
        have h2 : ¬ k = a.GUID := fun e => h e.symm
        simp [GoMap.set, h2]
      rw [hk, List.filter_cons_of_neg (by simpa using h)]

/-- After the loop that fills `domainsByGUID`, a key holds the last domain with that GUID,
or what it held before when there is none. -/
theorem domainsByGUID_loop (domains : List ccv3.Domain) :
    ∀ (m : GoMap ccv3.Domain) (k : String),
    (domains.foldl (fun m domain => m.set domain.GUID domain) m) k
      = ((domains.filter (fun domain => domain.GUID = k)).getLast?).or (m k) := by
  induction domains with
  | nil => intro m k; simp
  | cons a l ih =>
    intro m k
    simp only [List.foldl_cons]
    rw [ih]
    by_cases h : a.GUID = k
    · have hk : (m.set a.GUID a) k = some a := by simp [GoMap.set, h]
      rw [hk, List.filter_cons_of_pos (by simpa using h), List.getLast?_cons]
      cases (List.filter (fun domain => decide (domain.GUID = k)) l).getLast? <;> simp
    · have hk : (m.set a.GUID a) k = m k := by
        have h2 : ¬ k = a.GUID := fun e => h e.symm
        simp [GoMap.set, h2]
      rw [hk, List.filter_cons_of_neg (by simpa using h)]

/-- Reading a space name through the map gives the name the specification describes. -/
theorem spacesByGUID_index_Name (spaces : List ccv3.Space) (guid : String) :
    ((spacesByGUID spaces).index guid ⟨"", ""⟩).Name = spaceNameByGUID spaces guid := by
  unfold spacesByGUID GoMap.index spaceNameByGUID
  rw [spacesByGUID_loop]
  cases (List.filter (fun space => decide (space.GUID = guid)) spaces).getLast? <;>
    simp [GoMap.empty]

/-- Reading a domain name through the map gives the name the specification describes. -/
theorem domainsByGUID_index_Name (domains : List ccv3.Domain) (guid : String) :
    ((domainsByGUID domains).index guid ⟨"", ""⟩).Name = domainNameByGUID domains guid := by
  unfold domainsByGUID GoMap.index domainNameByGUID
  rw [domainsByGUID_loop]
  cases (List.filter (fun domain => decide (domain.GUID = guid)) domains).getLast? <;>
    simp [GoMap.empty]

/-- The loop that builds `actorRoutes` appends one route per backend route, in order. -/
theorem actorRoutes_loop (routes : List ccv3.Route) (spaces : GoMap ccv3.Space)
    (domains : GoMap ccv3.Domain) :
    ∀ (acc : List Route),
    routes.foldl
      (fun acc route => acc ++
        [({ GUID := route.GUID, Host := route.Host, Path := route.Path,
            SpaceGUID := route.SpaceGUID, DomainGUID := route.DomainGUID,
            SpaceName := (spaces.index route.SpaceGUID ⟨"", ""⟩).Name,
            DomainName := (domains.index route.DomainGUID ⟨"", ""⟩).Name } : Route)])
      acc
      = acc ++ routes.map (fun route =>
          ({ GUID := route.GUID, Host := route.Host, Path := route.Path,
             SpaceGUID := route.SpaceGUID, DomainGUID := route.DomainGUID,
             SpaceName := (spaces.index route.SpaceGUID ⟨"", ""⟩).Name,
             DomainName := (domains.index route.DomainGUID ⟨"", ""⟩).Name } : Route)) := by
  induction routes with
  | nil => intro acc; simp
  | cons r rs ih => intro acc; simp [ih]

/-- The routes that the listings return: one per backend route, in order, with the five
backend fields copied and the two names joined by GUID as the specification describes. -/
theorem actorRoutes_eq (routes : List ccv3.Route) (spaces : List ccv3.Space)
    (domains : List ccv3.Domain) :
    actorRoutes routes (spacesByGUID spaces) (domainsByGUID domains)
      = routes.map (fun route =>
          ({ GUID := route.GUID, Host := route.Host, Path := route.Path,
             SpaceGUID := route.SpaceGUID, DomainGUID := route.DomainGUID,
             SpaceName := spaceNameByGUID spaces route.SpaceGUID,
             DomainName := domainNameByGUID domains route.DomainGUID } : Route)) := by
  unfold actorRoutes
  rw [actorRoutes_loop]
  simp [spacesByGUID_index_Name, domainsByGUID_index_Name]

/-! ## The runs of the two listings -/

/-- The run of `GetRoutesBySpace` when the three calls succeed. -/
theorem GetRoutesBySpace.run_bySpace_success {σ : Type} (actor : Actor σ) (spaceGUID : String)
    (s s1 s2 s3 : σ) (routes : List ccv3.Route) (spaces : List ccv3.Space)
    (domains : List ccv3.Domain) (wr ws wd : Warnings)
    (hr : actor.CloudControllerClient.GetRoutes
        [⟨ccv3.QueryKey.SpaceGUIDFilter, [spaceGUID]⟩] s = ((routes, wr, none), s1))
    (hs : actor.CloudControllerClient.GetSpaces
        [⟨ccv3.QueryKey.GUIDFilter, [spaceGUID]⟩] s1 = ((spaces, ws, none), s2))
    (hd : actor.CloudControllerClient.GetDomains
        [⟨ccv3.QueryKey.GUIDFilter, GetRoutesBySpace.domainGUIDs routes⟩] s2
      = ((domains, wd, none), s3)) :
    GetRoutesBySpace actor spaceGUID s
      = ⟨some (actorRoutes routes (spacesByGUID spaces) (domainsByGUID domains)),
          wr ++ ws ++ wd, none,
          [Call.GetRoutes [⟨ccv3.QueryKey.SpaceGUIDFilter, [spaceGUID]⟩],
           Call.GetSpaces [⟨ccv3.QueryKey.GUIDFilter, [spaceGUID]⟩],
           Call.GetDomains [⟨ccv3.QueryKey.GUIDFilter, GetRoutesBySpace.domainGUIDs routes⟩]],
          s3⟩ := by
  simp [GetRoutesBySpace, hr, hs, hd]

/-- The run of `GetRoutesByOrg` when the three calls succeed. -/
theorem GetRoutesByOrg.run_byOrg_success {σ : Type} (actor : Actor σ) (orgGUID : String)
    (s s1 s2 s3 : σ) (routes : List ccv3.Route) (spaces : List ccv3.Space)
    (domains : List ccv3.Domain) (wr ws wd : Warnings)
    (hr : actor.CloudControllerClient.GetRoutes
        [⟨ccv3.QueryKey.OrganizationGUIDFilter, [orgGUID]⟩] s = ((routes, wr, none), s1))
    (hs : actor.CloudControllerClient.GetSpaces
        [(GetRoutesByOrg.queries routes).1] s1 = ((spaces, ws, none), s2))
    (hd : actor.CloudControllerClient.GetDomains
        [(GetRoutesByOrg.queries routes).2] s2 = ((domains, wd, none), s3)) :
    GetRoutesByOrg actor orgGUID s
      = ⟨some (actorRoutes routes (spacesByGUID spaces) (domainsByGUID domains)),
          wr ++ ws ++ wd, none,
          [Call.GetRoutes [⟨ccv3.QueryKey.OrganizationGUIDFilter, [orgGUID]⟩],
           Call.GetSpaces [(GetRoutesByOrg.queries routes).1],
           Call.GetDomains [(GetRoutesByOrg.queries routes).2]],
          s3⟩ := by
  simp [GetRoutesByOrg, hr, hs, hd]

/-- Whatever the collaborators answer, `DeleteRoute` calls no method twice. -/
theorem DeleteRoute.methods_nodup {σ : Type} (actor : Actor σ)
    (domainName hostname path : String) (s : σ) :
    ((DeleteRoute actor domainName hostname path s).calls.map Call.method).Nodup := by
  rcases hd : actor.GetDomainByName domainName s with ⟨⟨domain, wd, e1⟩, s1⟩
  cases e1 with
  | some e => simp [DeleteRoute, hd, Call.method]
  | none =>
    rcases hq : actor.CloudControllerClient.GetRoutes
      [ ⟨ccv3.QueryKey.DomainGUIDFilter, [domain.GUID]⟩,
        ⟨ccv3.QueryKey.HostnameFilter, [hostname]⟩,
        ⟨ccv3.QueryKey.PathFilter, [DeleteRoute.path path]⟩ ] s1 with ⟨⟨routes, wq, e2⟩, s2⟩
    cases e2 with
    | some e => simp [DeleteRoute, hd, hq, Call.method]
    | none =>
      cases routes with
      | nil => simp [DeleteRoute, hd, hq, Call.method]
      | cons route0 rest =>
        rcases hx : actor.CloudControllerClient.DeleteRoute route0.GUID s2
          with ⟨⟨jobURL, wx, e3⟩, s3⟩
        cases e3 with
        | some e => simp [DeleteRoute, hd, hq, hx, Call.method]
        | none => simp [DeleteRoute, hd, hq, hx, Call.method]

/-! ## DeleteRoute: warnings and failures -/

/-- Claim C11: when resolution, the query (with at least one match) and the deletion request
all succeed, the warnings `DeleteRoute` returns are exactly the domain-resolver warnings,
then the route-query warnings, then the deletion-request warnings, then the polling warnings,
whether or not polling returns an error. -/
theorem DeleteRoute_warnings {σ : Type} (actor : Actor σ)
    (domainName hostname path : String) (s s1 s2 s3 s4 : σ) (domain : Domain)
    (route0 : ccv3.Route) (rest : List ccv3.Route) (j : ccv3.JobURL)
    (wd wq wx wp : Warnings) (pollErr : Option Error)
    (hd : actor.GetDomainByName domainName s = ((domain, wd, none), s1))
    (hq : actor.CloudControllerClient.GetRoutes
        [ ⟨ccv3.QueryKey.DomainGUIDFilter, [domain.GUID]⟩,
          ⟨ccv3.QueryKey.HostnameFilter, [hostname]⟩,
          ⟨ccv3.QueryKey.PathFilter, [DeleteRoute.path path]⟩ ] s1
      = ((route0 :: rest, wq, none), s2))
    (hx : actor.CloudControllerClient.DeleteRoute route0.GUID s2 = ((j, wx, none), s3))
    (hp : actor.CloudControllerClient.PollJob j s3 = ((wp, pollErr), s4)) :
    (DeleteRoute actor domainName hostname path s).warnings = wd ++ wq ++ wx ++ wp := by
  simp [DeleteRoute, hd, hq, hx, hp]

theorem DeleteRoute_warnings_witness :
    (DeleteRoute (listActor [⟨"r1", "s", "d", "www", "/foo"⟩] [] []
        none none none none none (some (Error.other "job failed")))
      "example.com" "www" "foo" 0).warnings
      = ["domain-warning"] ++ ["routes-warning"] ++ ["delete-warning"] ++ ["poll-warning"] ∧
    (DeleteRoute (listActor [⟨"r1", "s", "d", "www", "/foo"⟩] [] []
        none none none none none none)
      "example.com" "www" "foo" 0).warnings
      = ["domain-warning"] ++ ["routes-warning"] ++ ["delete-warning"] ++ ["poll-warning"] :=
  ⟨DeleteRoute_warnings (listActor [⟨"r1", "s", "d", "www", "/foo"⟩] [] []
      none none none none none (some (Error.other "job failed")))
      "example.com" "www" "foo" 0 1 2 3 4
      ⟨"domain-guid", "example.com"⟩ ⟨"r1", "s", "d", "www", "/foo"⟩ [] "job-url"
      ["domain-warning"] ["routes-warning"] ["delete-warning"] ["poll-warning"]
      (some (Error.other "job failed")) rfl rfl rfl rfl,
   DeleteRoute_warnings (listActor [⟨"r1", "s", "d", "www", "/foo"⟩] [] []
      none none none none none none)
      "example.com" "www" "foo" 0 1 2 3 4
      ⟨"domain-guid", "example.com"⟩ ⟨"r1", "s", "d", "www", "/foo"⟩ [] "job-url"
      ["domain-warning"] ["routes-warning"] ["delete-warning"] ["poll-warning"]
      none rfl rfl rfl rfl⟩

/-- Claim C12: `DeleteRoute` stops at the first failing sub-call and reports it unchanged.
If domain resolution fails no route query is made; if the route query fails no deletion
request is made; if the deletion request fails no poll is made.  In each case the error is
that sub-call's error, the warnings are those of the sub-calls made, in call order and the
failing one included.  Whatever the outcome, no sub-call is made twice. -/
theorem DeleteRoute_first_failure {σ : Type} (actor : Actor σ)
    (domainName hostname path : String) (s : σ) :
    (∀ (domain : Domain) (wd : Warnings) (e : Error) (s1 : σ),
      actor.GetDomainByName domainName s = ((domain, wd, some e), s1) →
      DeleteRoute actor domainName hostname path s
        = ⟨(), wd, some e, [Call.GetDomainByName domainName], s1⟩) ∧
    (∀ (domain : Domain) (routes : List ccv3.Route) (wd wq : Warnings) (e : Error)
        (s1 s2 : σ),
      actor.GetDomainByName domainName s = ((domain, wd, none), s1) →
      actor.CloudControllerClient.GetRoutes
        [ ⟨ccv3.QueryKey.DomainGUIDFilter, [domain.GUID]⟩,
          ⟨ccv3.QueryKey.HostnameFilter, [hostname]⟩,
          ⟨ccv3.QueryKey.PathFilter, [DeleteRoute.path path]⟩ ] s1
        = ((routes, wq, some e), s2) →
      DeleteRoute actor domainName hostname path s
        = ⟨(), wd ++ wq, some e,
            [Call.GetDomainByName domainName,
             Call.GetRoutes
              [ ⟨ccv3.QueryKey.DomainGUIDFilter, [domain.GUID]⟩,
          ⟨ccv3.QueryKey.HostnameFilter, [hostname]⟩,
          ⟨ccv3.QueryKey.PathFilter, [DeleteRoute.path path]⟩ ]], s2⟩) ∧
    (∀ (domain : Domain) (route0 : ccv3.Route) (rest : List ccv3.Route) (j : ccv3.JobURL)
        (wd wq wx : Warnings) (e : Error) (s1 s2 s3 : σ),
      actor.GetDomainByName domainName s = ((domain, wd, none), s1) →
      actor.CloudControllerClient.GetRoutes
        [ ⟨ccv3.QueryKey.DomainGUIDFilter, [domain.GUID]⟩,
          ⟨ccv3.QueryKey.HostnameFilter, [hostname]⟩,
          ⟨ccv3.QueryKey.PathFilter, [DeleteRoute.path path]⟩ ] s1
        = ((route0 :: rest, wq, none), s2) →
      actor.CloudControllerClient.DeleteRoute route0.GUID s2 = ((j, wx, some e), s3) →
      DeleteRoute actor domainName hostname path s
        = ⟨(), wd ++ wq ++ wx, some e,
            [Call.GetDomainByName domainName,
             Call.GetRoutes
              [ ⟨ccv3.QueryKey.DomainGUIDFilter, [domain.GUID]⟩,
          ⟨ccv3.QueryKey.HostnameFilter, [hostname]⟩,
          ⟨ccv3.QueryKey.PathFilter, [DeleteRoute.path path]⟩ ],
             Call.DeleteRoute route0.GUID], s3⟩) ∧
    ((DeleteRoute actor domainName hostname path s).calls.map Call.method).Nodup := by
  refine ⟨?_, ?_, ?_, DeleteRoute.methods_nodup actor domainName hostname path s⟩
  · intro domain wd e s1 hd
    simp [DeleteRoute, hd]
  · intro domain routes wd wq e s1 s2 hd hq
    simp [DeleteRoute, hd, hq]
  · intro domain route0 rest j wd wq wx e s1 s2 s3 hd hq hx
    simp [DeleteRoute, hd, hq, hx]

theorem DeleteRoute_first_failure_witness :
    DeleteRoute (listActor [] [] [] (some (Error.other "no domain")) none none none none none)
        "example.com" "www" "foo" 0
      = ⟨(), ["domain-warning"], some (Error.other "no domain"),
          [Call.GetDomainByName "example.com"], 1⟩ ∧
    DeleteRoute (listActor [] [] [] none (some (Error.other "query failed")) none none none none)
        "example.com" "www" "foo" 0
      = ⟨(), ["domain-warning"] ++ ["routes-warning"], some (Error.other "query failed"),
          [Call.GetDomainByName "example.com",
           Call.GetRoutes
            [ ⟨ccv3.QueryKey.DomainGUIDFilter, ["domain-guid"]⟩,
          ⟨ccv3.QueryKey.HostnameFilter, ["www"]⟩,
          ⟨ccv3.QueryKey.PathFilter, [DeleteRoute.path "foo"]⟩ ]], 2⟩ ∧
    DeleteRoute (listActor [⟨"r1", "s", "d", "www", "/foo"⟩] [] []
          none none none none (some (Error.other "delete failed")) none)
        "example.com" "www" "foo" 0
      = ⟨(), ["domain-warning"] ++ ["routes-warning"] ++ ["delete-warning"],
          some (Error.other "delete failed"),
          [Call.GetDomainByName "example.com",
           Call.GetRoutes
            [ ⟨ccv3.QueryKey.DomainGUIDFilter, ["domain-guid"]⟩,
          ⟨ccv3.QueryKey.HostnameFilter, ["www"]⟩,
          ⟨ccv3.QueryKey.PathFilter, [DeleteRoute.path "foo"]⟩ ],
           Call.DeleteRoute "r1"], 3⟩ :=
  ⟨(DeleteRoute_first_failure
      (listActor [] [] [] (some (Error.other "no domain")) none none none none none)
      "example.com" "www" "foo" 0).1
      ⟨"domain-guid", "example.com"⟩ ["domain-warning"] (Error.other "no domain") 1 rfl,
   (DeleteRoute_first_failure
      (listActor [] [] [] none (some (Error.other "query failed")) none none none none)
      "example.com" "www" "foo" 0).2.1
      ⟨"domain-guid", "example.com"⟩ [] ["domain-warning"] ["routes-warning"]
      (Error.other "query failed") 1 2 rfl rfl,
   (DeleteRoute_first_failure
      (listActor [⟨"r1", "s", "d", "www", "/foo"⟩] [] []
        none none none none (some (Error.other "delete failed")) none)
      "example.com" "www" "foo" 0).2.2.1
      ⟨"domain-guid", "example.com"⟩ ⟨"r1", "s", "d", "www", "/foo"⟩ [] "job-url"
      ["domain-warning"] ["routes-warning"] ["delete-warning"]
      (Error.other "delete failed") 1 2 3 rfl rfl rfl⟩

/-! ## The joined names -/

/-- A GUID that no space of the batch carries gives the empty name. -/
theorem spaceNameByGUID_missing (spaces : List ccv3.Space) (guid : String)
    (h : ∀ sp ∈ spaces, sp.GUID ≠ guid) : spaceNameByGUID spaces guid = "" := by
  have h2 : spaces.filter (fun space => decide (space.GUID = guid)) = [] := by
    rw [List.filter_eq_nil_iff]
    intro sp hsp
    simpa using h sp hsp
  simp [spaceNameByGUID, h2]

/-- A GUID that no domain of the batch carries gives the empty name. -/
theorem domainNameByGUID_missing (domains : List ccv3.Domain) (guid : String)
    (h : ∀ d ∈ domains, d.GUID ≠ guid) : domainNameByGUID domains guid = "" := by
  have h2 : domains.filter (fun domain => decide (domain.GUID = guid)) = [] := by
    rw [List.filter_eq_nil_iff]
    intro d hd
    simpa using h d hd
  simp [domainNameByGUID, h2]

/-- The name joined for a GUID is the Name of the last space that carries it. -/
theorem spaceNameByGUID_last (before after : List ccv3.Space) (sp : ccv3.Space)
    (h : ∀ x ∈ after, x.GUID ≠ sp.GUID) :
    spaceNameByGUID (before ++ sp :: after) sp.GUID = sp.Name := by
  have h2 : after.filter (fun space => decide (space.GUID = sp.GUID)) = [] := by
    rw [List.filter_eq_nil_iff]
    intro x hx
    simpa using h x hx
  simp [spaceNameByGUID, List.filter_cons, h2]

/-- The name joined for a GUID is the Name of the last domain that carries it. -/
theorem domainNameByGUID_last (before after : List ccv3.Domain) (d : ccv3.Domain)
    (h : ∀ x ∈ after, x.GUID ≠ d.GUID) :
    domainNameByGUID (before ++ d :: after) d.GUID = d.Name := by
  have h2 : after.filter (fun domain => decide (domain.GUID = d.GUID)) = [] := by
    rw [List.filter_eq_nil_iff]
    intro x hx
    simpa using h x hx
  simp [domainNameByGUID, List.filter_cons, h2]

/-- The joined space name is not empty when the GUID occurs in the batch and the spaces
that carry it have non-empty names. -/
theorem spaceNameByGUID_ne_empty (spaces : List ccv3.Space) (guid : String)
    (hex : ∃ sp ∈ spaces, sp.GUID = guid)
    (hne : ∀ sp ∈ spaces, sp.GUID = guid → sp.Name ≠ "") :
    spaceNameByGUID spaces guid ≠ "" := by
  unfold spaceNameByGUID
  cases hl : (spaces.filter (fun space => decide (space.GUID = guid))).getLast? with
  | none =>
    rcases hex with ⟨sp, hsp, hg⟩
    rw [List.getLast?_eq_none_iff, List.filter_eq_nil_iff] at hl
    exact absurd hg (by simpa using hl sp hsp)
  | some sp =>
    have hm := List.mem_of_getLast?_eq_some hl
    rw [List.mem_filter] at hm
    exact hne sp hm.1 (by simpa using hm.2)

/-- The joined domain name is not empty when the GUID occurs in the batch and the domains
that carry it have non-empty names. -/
theorem domainNameByGUID_ne_empty (domains : List ccv3.Domain) (guid : String)
    (hex : ∃ d ∈ domains, d.GUID = guid)
    (hne : ∀ d ∈ domains, d.GUID = guid → d.Name ≠ "") :
    domainNameByGUID domains guid ≠ "" := by
  unfold domainNameByGUID
  cases hl : (domains.filter (fun domain => decide (domain.GUID = guid))).getLast? with
  | none =>
    rcases hex with ⟨d, hd, hg⟩
    rw [List.getLast?_eq_none_iff, List.filter_eq_nil_iff] at hl
    exact absurd hg (by simpa using hl d hd)
  | some d =>
    have hm := List.mem_of_getLast?_eq_some hl
    rw [List.mem_filter] at hm
    exact hne d hm.1 (by simpa using hm.2)

/-! ## GetRoutesBySpace and GetRoutesByOrg -/

/-- Claim C13: the values of the space-GUID lookup and of the domain-GUID lookup that
`GetRoutesByOrg` issues, and of the domain-GUID lookup that `GetRoutesBySpace` issues, are
the space GUIDs (domain GUIDs) of the routes the backend returned, in order of first
occurrence with every later repeat removed.  Such a list of values has no duplicates, holds
exactly the GUIDs the routes reference, and so has as many values as there are distinct
GUIDs. -/
theorem lookups_deduplicated {σ : Type} (actor : Actor σ) (spaceGUID orgGUID : String) (s : σ) :
    (∀ (routes : List ccv3.Route) (wr : Warnings) (s1 : σ),
      actor.CloudControllerClient.GetRoutes
        [⟨ccv3.QueryKey.OrganizationGUIDFilter, [orgGUID]⟩] s = ((routes, wr, none), s1) →
      callsTo "GetSpaces" (GetRoutesByOrg actor orgGUID s).calls
        = [Call.GetSpaces [⟨ccv3.QueryKey.GUIDFilter,
            firstOccurrences (routes.map (fun r => r.SpaceGUID))⟩]] ∧
      (∀ (spaces : List ccv3.Space) (ws : Warnings) (s2 : σ),
        actor.CloudControllerClient.GetSpaces
          [⟨ccv3.QueryKey.GUIDFilter, firstOccurrences (routes.map (fun r => r.SpaceGUID))⟩] s1
          = ((spaces, ws, none), s2) →
        callsTo "GetDomains" (GetRoutesByOrg actor orgGUID s).calls
          = [Call.GetDomains [⟨ccv3.QueryKey.GUIDFilter,
              firstOccurrences (routes.map (fun r => r.DomainGUID))⟩]])) ∧
    (∀ (routes : List ccv3.Route) (spaces : List ccv3.Space) (wr ws : Warnings) (s1 s2 : σ),
      actor.CloudControllerClient.GetRoutes
        [⟨ccv3.QueryKey.SpaceGUIDFilter, [spaceGUID]⟩] s = ((routes, wr, none), s1) →
      actor.CloudControllerClient.GetSpaces
        [⟨ccv3.QueryKey.GUIDFilter, [spaceGUID]⟩] s1 = ((spaces, ws, none), s2) →
      callsTo "GetDomains" (GetRoutesBySpace actor spaceGUID s).calls
        = [Call.GetDomains [⟨ccv3.QueryKey.GUIDFilter,
            firstOccurrences (routes.map (fun r => r.DomainGUID))⟩]]) ∧
    (∀ (guids : List String),
      (firstOccurrences guids).Nodup ∧
      (∀ x, x ∈ firstOccurrences guids ↔ x ∈ guids) ∧
      (firstOccurrences guids).length = guids.toFinset.card) := by
  refine ⟨?_, ?_, ?_⟩
  · intro routes wr s1 hr
    have hq := GetRoutesByOrg.queries_eq routes
    constructor
    · rcases hs : actor.CloudControllerClient.GetSpaces
        [⟨ccv3.QueryKey.GUIDFilter, firstOccurrences (routes.map (fun r => r.SpaceGUID))⟩] s1
        with ⟨⟨spaces, ws, e2⟩, s2⟩
      cases e2 with
      | some e => simp [GetRoutesByOrg, hr, hq, hs, callsTo, Call.method]
      | none =>
        rcases hd : actor.CloudControllerClient.GetDomains
          [⟨ccv3.QueryKey.GUIDFilter, firstOccurrences (routes.map (fun r => r.DomainGUID))⟩] s2
          with ⟨⟨domains, wd, e3⟩, s3⟩
        cases e3 with
        | some e => simp [GetRoutesByOrg, hr, hq, hs, hd, callsTo, Call.method]
        | none => simp [GetRoutesByOrg, hr, hq, hs, hd, callsTo, Call.method]
    · intro spaces ws s2 hs
      rcases hd : actor.CloudControllerClient.GetDomains
        [⟨ccv3.QueryKey.GUIDFilter, firstOccurrences (routes.map (fun r => r.DomainGUID))⟩] s2
        with ⟨⟨domains, wd, e3⟩, s3⟩
      cases e3 with
      | some e => simp [GetRoutesByOrg, hr, hq, hs, hd, callsTo, Call.method]
      | none => simp [GetRoutesByOrg, hr, hq, hs, hd, callsTo, Call.method]
  · intro routes spaces wr ws s1 s2 hr hs
    have hq := GetRoutesBySpace.domainGUIDs_eq routes
    rcases hd : actor.CloudControllerClient.GetDomains
      [⟨ccv3.QueryKey.GUIDFilter, firstOccurrences (routes.map (fun r => r.DomainGUID))⟩] s2
      with ⟨⟨domains, wd, e3⟩, s3⟩
    cases e3 with
    | some e => simp [GetRoutesBySpace, hr, hq, hs, hd, callsTo, Call.method]
    | none => simp [GetRoutesBySpace, hr, hq, hs, hd, callsTo, Call.method]
  · intro guids
    exact ⟨firstOccurrences_nodup guids, mem_firstOccurrences guids,
      length_firstOccurrences guids⟩

theorem lookups_deduplicated_witness :
    (callsTo "GetSpaces" (GetRoutesByOrg demoListActor "org-guid" 0).calls
        = [Call.GetSpaces [⟨ccv3.QueryKey.GUIDFilter,
            firstOccurrences (demoRoutes.map (fun r => r.SpaceGUID))⟩]] ∧
      callsTo "GetDomains" (GetRoutesByOrg demoListActor "org-guid" 0).calls
        = [Call.GetDomains [⟨ccv3.QueryKey.GUIDFilter,
            firstOccurrences (demoRoutes.map (fun r => r.DomainGUID))⟩]]) ∧
    callsTo "GetDomains" (GetRoutesBySpace demoListActor "s1" 0).calls
      = [Call.GetDomains [⟨ccv3.QueryKey.GUIDFilter,
          firstOccurrences (demoRoutes.map (fun r => r.DomainGUID))⟩]] ∧
    firstOccurrences (demoRoutes.map (fun r => r.SpaceGUID)) = ["s1", "s2"] ∧
    firstOccurrences (demoRoutes.map (fun r => r.DomainGUID)) = ["d1", "d2"] :=
  ⟨⟨((lookups_deduplicated demoListActor "s1" "org-guid" 0).1
        demoRoutes ["routes-warning"] 1 rfl).1,
     ((lookups_deduplicated demoListActor "s1" "org-guid" 0).1
        demoRoutes ["routes-warning"] 1 rfl).2 demoSpaces ["spaces-warning"] 2 rfl⟩,
   (lookups_deduplicated demoListActor "s1" "org-guid" 0).2.1
      demoRoutes demoSpaces ["routes-warning"] ["spaces-warning"] 1 2 rfl rfl,
   by decide, by decide⟩

/-- Claim C14, as it is written, fails: when the backend returns no route, the routes
reference zero space GUIDs, yet the space lookup of `GetRoutesBySpace` carries one value. -/
theorem GetRoutesBySpace_space_lookup_not_distinct_set :
    ¬ (∃ values : List String,
        callsTo "GetSpaces"
          (GetRoutesBySpace (listActor [] [] [] none none none none none none) "s1" 0).calls
          = [Call.GetSpaces [⟨ccv3.QueryKey.GUIDFilter, values⟩]] ∧
        values.length
          = ((([] : List ccv3.Route).map (fun r => r.SpaceGUID)).toFinset).card) := by
  rintro ⟨values, h1, h2⟩
  have h3 : callsTo "GetSpaces"
      (GetRoutesBySpace (listActor [] [] [] none none none none none none) "s1" 0).calls
      = [Call.GetSpaces [⟨ccv3.QueryKey.GUIDFilter, ["s1"]⟩]] := by decide
  rw [h3] at h1
  have h4 : values = ["s1"] := by
    simp only [List.cons.injEq, Call.GetSpaces.injEq, ccv3.Query.mk.injEq, and_true,
      true_and] at h1
    exact h1.symm
  subst h4
  simp at h2

/-- Claim C14, amended: whatever routes the backend returns to `GetRoutesBySpace`, the space
lookup is issued once and its GUID filter has exactly one value, the space GUID the caller
passed. -/
theorem GetRoutesBySpace_space_lookup {σ : Type} (actor : Actor σ) (spaceGUID : String)
    (s s1 : σ) (routes : List ccv3.Route) (wr : Warnings)
    (hr : actor.CloudControllerClient.GetRoutes
        [⟨ccv3.QueryKey.SpaceGUIDFilter, [spaceGUID]⟩] s = ((routes, wr, none), s1)) :
    callsTo "GetSpaces" (GetRoutesBySpace actor spaceGUID s).calls
      = [Call.GetSpaces [⟨ccv3.QueryKey.GUIDFilter, [spaceGUID]⟩]] := by
  rcases hs : actor.CloudControllerClient.GetSpaces
    [⟨ccv3.QueryKey.GUIDFilter, [spaceGUID]⟩] s1 with ⟨⟨spaces, ws, e2⟩, s2⟩
  cases e2 with
  | some e => simp [GetRoutesBySpace, hr, hs, callsTo, Call.method]
  | none =>
    rcases hd : actor.CloudControllerClient.GetDomains
      [⟨ccv3.QueryKey.GUIDFilter, GetRoutesBySpace.domainGUIDs routes⟩] s2
      with ⟨⟨domains, wd, e3⟩, s3⟩
    cases e3 with
    | some e => simp [GetRoutesBySpace, hr, hs, hd, callsTo, Call.method]
    | none => simp [GetRoutesBySpace, hr, hs, hd, callsTo, Call.method]

theorem GetRoutesBySpace_space_lookup_witness :
    callsTo "GetSpaces" (GetRoutesBySpace demoListActor "s1" 0).calls
      = [Call.GetSpaces [⟨ccv3.QueryKey.GUIDFilter, ["s1"]⟩]] :=
  GetRoutesBySpace_space_lookup demoListActor "s1" 0 1 demoRoutes ["routes-warning"] rfl

/-- Claim C15: in every successful run of `GetRoutesBySpace` or `GetRoutesByOrg` no error is
returned and, for every returned route, SpaceName is the Name of the last space of the batch
result whose GUID is the route's SpaceGUID, and the empty string when the batch holds none;
likewise DomainName with respect to the domain batch. -/
theorem names_joined_by_GUID {σ : Type} (actor : Actor σ) (spaceGUID orgGUID : String)
    (s s1 s2 s3 : σ) (routes : List ccv3.Route) (spaces : List ccv3.Space)
    (domains : List ccv3.Domain) (wr ws wd : Warnings) :
    (actor.CloudControllerClient.GetRoutes
        [⟨ccv3.QueryKey.SpaceGUIDFilter, [spaceGUID]⟩] s = ((routes, wr, none), s1) →
      actor.CloudControllerClient.GetSpaces
        [⟨ccv3.QueryKey.GUIDFilter, [spaceGUID]⟩] s1 = ((spaces, ws, none), s2) →
      actor.CloudControllerClient.GetDomains
        [⟨ccv3.QueryKey.GUIDFilter, GetRoutesBySpace.domainGUIDs routes⟩] s2
        = ((domains, wd, none), s3) →
      (GetRoutesBySpace actor spaceGUID s).err = none ∧
      ∃ rs, (GetRoutesBySpace actor spaceGUID s).value = some rs ∧
        ∀ r ∈ rs, r.SpaceName = spaceNameByGUID spaces r.SpaceGUID ∧
          r.DomainName = domainNameByGUID domains r.DomainGUID) ∧
    (actor.CloudControllerClient.GetRoutes
        [⟨ccv3.QueryKey.OrganizationGUIDFilter, [orgGUID]⟩] s = ((routes, wr, none), s1) →
      actor.CloudControllerClient.GetSpaces
        [(GetRoutesByOrg.queries routes).1] s1 = ((spaces, ws, none), s2) →
      actor.CloudControllerClient.GetDomains
        [(GetRoutesByOrg.queries routes).2] s2 = ((domains, wd, none), s3) →
      (GetRoutesByOrg actor orgGUID s).err = none ∧
      ∃ rs, (GetRoutesByOrg actor orgGUID s).value = some rs ∧
        ∀ r ∈ rs, r.SpaceName = spaceNameByGUID spaces r.SpaceGUID ∧
          r.DomainName = domainNameByGUID domains r.DomainGUID) ∧
    (∀ guid, (∀ sp ∈ spaces, sp.GUID ≠ guid) → spaceNameByGUID spaces guid = "") ∧
    (∀ guid, (∀ d ∈ domains, d.GUID ≠ guid) → domainNameByGUID domains guid = "") ∧
    (∀ before after sp, spaces = before ++ sp :: after → (∀ x ∈ after, x.GUID ≠ sp.GUID) →
      spaceNameByGUID spaces sp.GUID = sp.Name) ∧
    (∀ before after d, domains = before ++ d :: after → (∀ x ∈ after, x.GUID ≠ d.GUID) →
      domainNameByGUID domains d.GUID = d.Name) := by
  refine ⟨?_, ?_, spaceNameByGUID_missing spaces, domainNameByGUID_missing domains, ?_, ?_⟩
  · intro hr hs hd
    rw [GetRoutesBySpace.run_bySpace_success actor spaceGUID s s1 s2 s3 routes spaces domains
      wr ws wd hr hs hd]
    refine ⟨rfl, _, rfl, ?_⟩
    intro r hr2
    rw [actorRoutes_eq, List.mem_map] at hr2
    rcases hr2 with ⟨route, _, rfl⟩
    exact ⟨rfl, rfl⟩
  · intro hr hs hd
    rw [GetRoutesByOrg.run_byOrg_success actor orgGUID s s1 s2 s3 routes spaces domains
      wr ws wd hr hs hd]
    refine ⟨rfl, _, rfl, ?_⟩
    intro r hr2
    rw [actorRoutes_eq, List.mem_map] at hr2
    rcases hr2 with ⟨route, _, rfl⟩
    exact ⟨rfl, rfl⟩
  · intro before after sp h1 h2
    subst h1
    exact spaceNameByGUID_last before after sp h2
  · intro before after d h1 h2
    subst h1
    exact domainNameByGUID_last before after d h2

theorem names_joined_by_GUID_witness :
    ((GetRoutesBySpace demoListActor "s1" 0).err = none ∧
      ∃ rs, (GetRoutesBySpace demoListActor "s1" 0).value = some rs ∧
        ∀ r ∈ rs, r.SpaceName = spaceNameByGUID demoSpaces r.SpaceGUID ∧
          r.DomainName = domainNameByGUID demoDomains r.DomainGUID) ∧
    ((GetRoutesByOrg demoListActor "org-guid" 0).err = none ∧
      ∃ rs, (GetRoutesByOrg demoListActor "org-guid" 0).value = some rs ∧
        ∀ r ∈ rs, r.SpaceName = spaceNameByGUID demoSpaces r.SpaceGUID ∧
          r.DomainName = domainNameByGUID demoDomains r.DomainGUID) ∧
    (GetRoutesBySpace demoListActor "s1" 0).value
      = some [ ⟨"r1", "s1", "d1", "www", "", "example.com", "dev"⟩,
               ⟨"r2", "s1", "d2", "api", "/v2", "example.org", "dev"⟩,
               ⟨"r3", "s2", "d1", "app", "", "example.com", ""⟩ ] :=
  ⟨(names_joined_by_GUID demoListActor "s1" "org-guid" 0 1 2 3 demoRoutes demoSpaces demoDomains
      ["routes-warning"] ["spaces-warning"] ["domains-warning"]).1 rfl rfl rfl,
   (names_joined_by_GUID demoListActor "s1" "org-guid" 0 1 2 3 demoRoutes demoSpaces demoDomains
      ["routes-warning"] ["spaces-warning"] ["domains-warning"]).2.1 rfl rfl rfl,
   by decide⟩

/-- Claim C16, as it is written, fails: the backend answers the space lookup with a space
whose Name is empty; the returned route has its SpaceGUID among the GUIDs of the space batch
and its DomainGUID among those of the domain batch, and its SpaceName is empty. -/
theorem names_not_always_non_empty :
    ¬ (∀ rs, (GetRoutesBySpace
          (listActor [⟨"r1", "s1", "d1", "www", ""⟩] [⟨"s1", ""⟩] [⟨"d1", "example.com"⟩]
          none none none none none none) "s1" 0).value = some rs →
        ∀ r ∈ rs,
          r.SpaceGUID ∈ ([⟨"s1", ""⟩] : List ccv3.Space).map (fun sp => sp.GUID) →
          r.DomainGUID ∈ ([⟨"d1", "example.com"⟩] : List ccv3.Domain).map (fun d => d.GUID) →
          r.SpaceName ≠ "" ∧ r.DomainName ≠ "") := by
  intro h
  have h2 := h [⟨"r1", "s1", "d1", "www", "", "example.com", ""⟩] (by decide)
    ⟨"r1", "s1", "d1", "www", "", "example.com", ""⟩ (by simp) (by decide) (by decide)
  exact h2.1 rfl

/-- Claim C16, amended: every Route returned by a successful `GetRoutesBySpace` or
`GetRoutesByOrg` whose SpaceGUID occurs among the GUIDs of the space batch result and whose
DomainGUID occurs among the GUIDs of the domain batch result has a non-empty SpaceName and a
non-empty DomainName, provided the spaces and the domains of the batch results that carry
those GUIDs have non-empty Names. -/
theorem names_non_empty {σ : Type} (actor : Actor σ) (spaceGUID orgGUID : String)
    (s s1 s2 s3 : σ) (routes : List ccv3.Route) (spaces : List ccv3.Space)
    (domains : List ccv3.Domain) (wr ws wd : Warnings) :
    (actor.CloudControllerClient.GetRoutes
        [⟨ccv3.QueryKey.SpaceGUIDFilter, [spaceGUID]⟩] s = ((routes, wr, none), s1) →
      actor.CloudControllerClient.GetSpaces
        [⟨ccv3.QueryKey.GUIDFilter, [spaceGUID]⟩] s1 = ((spaces, ws, none), s2) →
      actor.CloudControllerClient.GetDomains
        [⟨ccv3.QueryKey.GUIDFilter, GetRoutesBySpace.domainGUIDs routes⟩] s2
        = ((domains, wd, none), s3) →
      ∀ rs, (GetRoutesBySpace actor spaceGUID s).value = some rs → ∀ r ∈ rs,
        (∃ sp ∈ spaces, sp.GUID = r.SpaceGUID) → (∃ d ∈ domains, d.GUID = r.DomainGUID) →
        (∀ sp ∈ spaces, sp.GUID = r.SpaceGUID → sp.Name ≠ "") →
        (∀ d ∈ domains, d.GUID = r.DomainGUID → d.Name ≠ "") →
        r.SpaceName ≠ "" ∧ r.DomainName ≠ "") ∧
    (actor.CloudControllerClient.GetRoutes
        [⟨ccv3.QueryKey.OrganizationGUIDFilter, [orgGUID]⟩] s = ((routes, wr, none), s1) →
      actor.CloudControllerClient.GetSpaces
        [(GetRoutesByOrg.queries routes).1] s1 = ((spaces, ws, none), s2) →
      actor.CloudControllerClient.GetDomains
        [(GetRoutesByOrg.queries routes).2] s2 = ((domains, wd, none), s3) →
      ∀ rs, (GetRoutesByOrg actor orgGUID s).value = some rs → ∀ r ∈ rs,
        (∃ sp ∈ spaces, sp.GUID = r.SpaceGUID) → (∃ d ∈ domains, d.GUID = r.DomainGUID) →
        (∀ sp ∈ spaces, sp.GUID = r.SpaceGUID → sp.Name ≠ "") →
        (∀ d ∈ domains, d.GUID = r.DomainGUID → d.Name ≠ "") →
        r.SpaceName ≠ "" ∧ r.DomainName ≠ "") := by
  constructor
  · intro hr hs hd rs hv r hr2 hes hed hns hnd
    rw [GetRoutesBySpace.run_bySpace_success actor spaceGUID s s1 s2 s3 routes spaces domains
      wr ws wd hr hs hd] at hv
    simp only [Option.some.injEq] at hv
    subst hv
    rw [actorRoutes_eq, List.mem_map] at hr2
    rcases hr2 with ⟨route, _, rfl⟩
    exact ⟨spaceNameByGUID_ne_empty spaces _ hes hns,
      domainNameByGUID_ne_empty domains _ hed hnd⟩
  · intro hr hs hd rs hv r hr2 hes hed hns hnd
    rw [GetRoutesByOrg.run_byOrg_success actor orgGUID s s1 s2 s3 routes spaces domains
      wr ws wd hr hs hd] at hv
    simp only [Option.some.injEq] at hv
    subst hv
    rw [actorRoutes_eq, List.mem_map] at hr2
    rcases hr2 with ⟨route, _, rfl⟩
    exact ⟨spaceNameByGUID_ne_empty spaces _ hes hns,
      domainNameByGUID_ne_empty domains _ hed hnd⟩

theorem names_non_empty_witness :
    ((⟨"r1", "s1", "d1", "www", "", "example.com", "dev"⟩ : Route).SpaceName ≠ "" ∧
      (⟨"r1", "s1", "d1", "www", "", "example.com", "dev"⟩ : Route).DomainName ≠ "") ∧
    ((⟨"r2", "s1", "d2", "api", "/v2", "example.org", "dev"⟩ : Route).SpaceName ≠ "" ∧
      (⟨"r2", "s1", "d2", "api", "/v2", "example.org", "dev"⟩ : Route).DomainName ≠ "") :=
  ⟨(names_non_empty demoListActor "s1" "org-guid" 0 1 2 3 demoRoutes demoSpaces demoDomains
      ["routes-warning"] ["spaces-warning"] ["domains-warning"]).1 rfl rfl rfl
      [ ⟨"r1", "s1", "d1", "www", "", "example.com", "dev"⟩,
        ⟨"r2", "s1", "d2", "api", "/v2", "example.org", "dev"⟩,
        ⟨"r3", "s2", "d1", "app", "", "example.com", ""⟩ ] (by decide)
      ⟨"r1", "s1", "d1", "www", "", "example.com", "dev"⟩ (by simp)
      ⟨⟨"s1", "dev"⟩, by decide, rfl⟩ ⟨⟨"d1", "example.com"⟩, by decide, rfl⟩
      (by decide) (by decide),
   (names_non_empty demoListActor "s1" "org-guid" 0 1 2 3 demoRoutes demoSpaces demoDomains
      ["routes-warning"] ["spaces-warning"] ["domains-warning"]).2 rfl rfl rfl
      [ ⟨"r1", "s1", "d1", "www", "", "example.com", "dev"⟩,
        ⟨"r2", "s1", "d2", "api", "/v2", "example.org", "dev"⟩,
        ⟨"r3", "s2", "d1", "app", "", "example.com", ""⟩ ] (by decide)
      ⟨"r2", "s1", "d2", "api", "/v2", "example.org", "dev"⟩ (by simp)
      ⟨⟨"s1", "dev"⟩, by decide, rfl⟩ ⟨⟨"d2", "example.org"⟩, by decide, rfl⟩
      (by decide) (by decide)⟩

/-- Claim C17: `GetRoutesBySpace` and `GetRoutesByOrg` each call the backend in the order
routes, spaces, domains, each once at most, and stop at the first call that fails.  In every
outcome the warnings are those of the calls made, in that order; when a call fails the
returned list is nil, the error is that call's error and no later lookup is issued. -/
theorem listings_stop_at_first_failure {σ : Type} (actor : Actor σ)
    (spaceGUID orgGUID : String) (s : σ) :
    ((∀ (routes : List ccv3.Route) (wr : Warnings) (e : Error) (s1 : σ),
      actor.CloudControllerClient.GetRoutes
        [⟨ccv3.QueryKey.SpaceGUIDFilter, [spaceGUID]⟩] s = ((routes, wr, some e), s1) →
      GetRoutesBySpace actor spaceGUID s = ⟨none, wr, some e, [Call.GetRoutes [⟨ccv3.QueryKey.SpaceGUIDFilter, [spaceGUID]⟩]], s1⟩) ∧
    (∀ (routes : List ccv3.Route) (spaces : List ccv3.Space) (wr ws : Warnings) (e : Error)
        (s1 s2 : σ),
      actor.CloudControllerClient.GetRoutes
        [⟨ccv3.QueryKey.SpaceGUIDFilter, [spaceGUID]⟩] s = ((routes, wr, none), s1) →
      actor.CloudControllerClient.GetSpaces
        [⟨ccv3.QueryKey.GUIDFilter, [spaceGUID]⟩] s1 = ((spaces, ws, some e), s2) →
      GetRoutesBySpace actor spaceGUID s
        = ⟨none, wr ++ ws, some e,
            [Call.GetRoutes [⟨ccv3.QueryKey.SpaceGUIDFilter, [spaceGUID]⟩],
             Call.GetSpaces [⟨ccv3.QueryKey.GUIDFilter, [spaceGUID]⟩]], s2⟩) ∧
    (∀ (routes : List ccv3.Route) (spaces : List ccv3.Space) (domains : List ccv3.Domain)
        (wr ws wd : Warnings) (e : Error) (s1 s2 s3 : σ),
      actor.CloudControllerClient.GetRoutes
        [⟨ccv3.QueryKey.SpaceGUIDFilter, [spaceGUID]⟩] s = ((routes, wr, none), s1) →
      actor.CloudControllerClient.GetSpaces
        [⟨ccv3.QueryKey.GUIDFilter, [spaceGUID]⟩] s1 = ((spaces, ws, none), s2) →
      actor.CloudControllerClient.GetDomains
        [⟨ccv3.QueryKey.GUIDFilter, GetRoutesBySpace.domainGUIDs routes⟩] s2 = ((domains, wd, some e), s3) →
      GetRoutesBySpace actor spaceGUID s
        = ⟨none, wr ++ ws ++ wd, some e,
            [Call.GetRoutes [⟨ccv3.QueryKey.SpaceGUIDFilter, [spaceGUID]⟩],
             Call.GetSpaces [⟨ccv3.QueryKey.GUIDFilter, [spaceGUID]⟩],
             Call.GetDomains [⟨ccv3.QueryKey.GUIDFilter, GetRoutesBySpace.domainGUIDs routes⟩]], s3⟩) ∧
    (∀ (routes : List ccv3.Route) (spaces : List ccv3.Space) (domains : List ccv3.Domain)
        (wr ws wd : Warnings) (s1 s2 s3 : σ),
      actor.CloudControllerClient.GetRoutes
        [⟨ccv3.QueryKey.SpaceGUIDFilter, [spaceGUID]⟩] s = ((routes, wr, none), s1) →
      actor.CloudControllerClient.GetSpaces
        [⟨ccv3.QueryKey.GUIDFilter, [spaceGUID]⟩] s1 = ((spaces, ws, none), s2) →
      actor.CloudControllerClient.GetDomains
        [⟨ccv3.QueryKey.GUIDFilter, GetRoutesBySpace.domainGUIDs routes⟩] s2 = ((domains, wd, none), s3) →
      GetRoutesBySpace actor spaceGUID s
        = ⟨some (actorRoutes routes (spacesByGUID spaces) (domainsByGUID domains)),
            wr ++ ws ++ wd, none,
            [Call.GetRoutes [⟨ccv3.QueryKey.SpaceGUIDFilter, [spaceGUID]⟩],
             Call.GetSpaces [⟨ccv3.QueryKey.GUIDFilter, [spaceGUID]⟩],
             Call.GetDomains [⟨ccv3.QueryKey.GUIDFilter, GetRoutesBySpace.domainGUIDs routes⟩]], s3⟩)) ∧
    ((∀ (routes : List ccv3.Route) (wr : Warnings) (e : Error) (s1 : σ),
      actor.CloudControllerClient.GetRoutes
        [⟨ccv3.QueryKey.OrganizationGUIDFilter, [orgGUID]⟩] s = ((routes, wr, some e), s1) →
      GetRoutesByOrg actor orgGUID s = ⟨none, wr, some e, [Call.GetRoutes [⟨ccv3.QueryKey.OrganizationGUIDFilter, [orgGUID]⟩]], s1⟩) ∧
    (∀ (routes : List ccv3.Route) (spaces : List ccv3.Space) (wr ws : Warnings) (e : Error)
        (s1 s2 : σ),
      actor.CloudControllerClient.GetRoutes
        [⟨ccv3.QueryKey.OrganizationGUIDFilter, [orgGUID]⟩] s = ((routes, wr, none), s1) →
      actor.CloudControllerClient.GetSpaces
        [(GetRoutesByOrg.queries routes).1] s1 = ((spaces, ws, some e), s2) →
      GetRoutesByOrg actor orgGUID s
        = ⟨none, wr ++ ws, some e,
            [Call.GetRoutes [⟨ccv3.QueryKey.OrganizationGUIDFilter, [orgGUID]⟩],
             Call.GetSpaces [(GetRoutesByOrg.queries routes).1]], s2⟩) ∧
    (∀ (routes : List ccv3.Route) (spaces : List ccv3.Space) (domains : List ccv3.Domain)
        (wr ws wd : Warnings) (e : Error) (s1 s2 s3 : σ),
      actor.CloudControllerClient.GetRoutes
        [⟨ccv3.QueryKey.OrganizationGUIDFilter, [orgGUID]⟩] s = ((routes, wr, none), s1) →
      actor.CloudControllerClient.GetSpaces
        [(GetRoutesByOrg.queries routes).1] s1 = ((spaces, ws, none), s2) →
      actor.CloudControllerClient.GetDomains
        [(GetRoutesByOrg.queries routes).2] s2 = ((domains, wd, some e), s3) →
      GetRoutesByOrg actor orgGUID s
        = ⟨none, wr ++ ws ++ wd, some e,
            [Call.GetRoutes [⟨ccv3.QueryKey.OrganizationGUIDFilter, [orgGUID]⟩],
             Call.GetSpaces [(GetRoutesByOrg.queries routes).1],
             Call.GetDomains [(GetRoutesByOrg.queries routes).2]], s3⟩) ∧
    (∀ (routes : List ccv3.Route) (spaces : List ccv3.Space) (domains : List ccv3.Domain)
        (wr ws wd : Warnings) (s1 s2 s3 : σ),
      actor.CloudControllerClient.GetRoutes
        [⟨ccv3.QueryKey.OrganizationGUIDFilter, [orgGUID]⟩] s = ((routes, wr, none), s1) →
      actor.CloudControllerClient.GetSpaces
        [(GetRoutesByOrg.queries routes).1] s1 = ((spaces, ws, none), s2) →
      actor.CloudControllerClient.GetDomains
        [(GetRoutesByOrg.queries routes).2] s2 = ((domains, wd, none), s3) →
      GetRoutesByOrg actor orgGUID s
        = ⟨some (actorRoutes routes (spacesByGUID spaces) (domainsByGUID domains)),
            wr ++ ws ++ wd, none,
            [Call.GetRoutes [⟨ccv3.QueryKey.OrganizationGUIDFilter, [orgGUID]⟩],
             Call.GetSpaces [(GetRoutesByOrg.queries routes).1],
             Call.GetDomains [(GetRoutesByOrg.queries routes).2]], s3⟩)) := by
  refine ⟨⟨?_, ?_, ?_, ?_⟩, ⟨?_, ?_, ?_, ?_⟩⟩
  · intro routes wr e s1 hr
    simp [GetRoutesBySpace, hr]
  · intro routes spaces wr ws e s1 s2 hr hs
    simp [GetRoutesBySpace, hr, hs]
  · intro routes spaces domains wr ws wd e s1 s2 s3 hr hs hd
    simp [GetRoutesBySpace, hr, hs, hd]
  · intro routes spaces domains wr ws wd s1 s2 s3 hr hs hd
    simp [GetRoutesBySpace, hr, hs, hd]
  · intro routes wr e s1 hr
    simp [GetRoutesByOrg, hr]
  · intro routes spaces wr ws e s1 s2 hr hs
    simp [GetRoutesByOrg, hr, hs]
  · intro routes spaces domains wr ws wd e s1 s2 s3 hr hs hd
    simp [GetRoutesByOrg, hr, hs, hd]
  · intro routes spaces domains wr ws wd s1 s2 s3 hr hs hd
    simp [GetRoutesByOrg, hr, hs, hd]

theorem listings_stop_at_first_failure_witness :
    (GetRoutesBySpace routesDownActor "s1" 0
      = ⟨none, ["routes-warning"], some (Error.other "down"), [Call.GetRoutes [⟨ccv3.QueryKey.SpaceGUIDFilter, ["s1"]⟩]], 1⟩) ∧
    (GetRoutesBySpace spacesDownActor "s1" 0
      = ⟨none, ["routes-warning"] ++ ["spaces-warning"], some (Error.other "down"),
          [Call.GetRoutes [⟨ccv3.QueryKey.SpaceGUIDFilter, ["s1"]⟩],
           Call.GetSpaces [⟨ccv3.QueryKey.GUIDFilter, ["s1"]⟩]], 2⟩) ∧
    (GetRoutesBySpace domainsDownActor "s1" 0
      = ⟨none, ["routes-warning"] ++ ["spaces-warning"] ++ ["domains-warning"], some (Error.other "down"),
          [Call.GetRoutes [⟨ccv3.QueryKey.SpaceGUIDFilter, ["s1"]⟩],
           Call.GetSpaces [⟨ccv3.QueryKey.GUIDFilter, ["s1"]⟩],
           Call.GetDomains [⟨ccv3.QueryKey.GUIDFilter, GetRoutesBySpace.domainGUIDs demoRoutes⟩]], 3⟩) ∧
    (GetRoutesBySpace demoListActor "s1" 0
      = ⟨some (actorRoutes demoRoutes (spacesByGUID demoSpaces) (domainsByGUID demoDomains)),
          ["routes-warning"] ++ ["spaces-warning"] ++ ["domains-warning"], none,
          [Call.GetRoutes [⟨ccv3.QueryKey.SpaceGUIDFilter, ["s1"]⟩],
           Call.GetSpaces [⟨ccv3.QueryKey.GUIDFilter, ["s1"]⟩],
           Call.GetDomains [⟨ccv3.QueryKey.GUIDFilter, GetRoutesBySpace.domainGUIDs demoRoutes⟩]], 3⟩) ∧
    (GetRoutesByOrg routesDownActor "org-guid" 0
      = ⟨none, ["routes-warning"], some (Error.other "down"), [Call.GetRoutes [⟨ccv3.QueryKey.OrganizationGUIDFilter, ["org-guid"]⟩]], 1⟩) ∧
    (GetRoutesByOrg spacesDownActor "org-guid" 0
      = ⟨none, ["routes-warning"] ++ ["spaces-warning"], some (Error.other "down"),
          [Call.GetRoutes [⟨ccv3.QueryKey.OrganizationGUIDFilter, ["org-guid"]⟩],
           Call.GetSpaces [(GetRoutesByOrg.queries demoRoutes).1]], 2⟩) ∧
    (GetRoutesByOrg domainsDownActor "org-guid" 0
      = ⟨none, ["routes-warning"] ++ ["spaces-warning"] ++ ["domains-warning"], some (Error.other "down"),
          [Call.GetRoutes [⟨ccv3.QueryKey.OrganizationGUIDFilter, ["org-guid"]⟩],
           Call.GetSpaces [(GetRoutesByOrg.queries demoRoutes).1],
           Call.GetDomains [(GetRoutesByOrg.queries demoRoutes).2]], 3⟩) ∧
    (GetRoutesByOrg demoListActor "org-guid" 0
      = ⟨some (actorRoutes demoRoutes (spacesByGUID demoSpaces) (domainsByGUID demoDomains)),
          ["routes-warning"] ++ ["spaces-warning"] ++ ["domains-warning"], none,
          [Call.GetRoutes [⟨ccv3.QueryKey.OrganizationGUIDFilter, ["org-guid"]⟩],
           Call.GetSpaces [(GetRoutesByOrg.queries demoRoutes).1],
           Call.GetDomains [(GetRoutesByOrg.queries demoRoutes).2]], 3⟩) :=
  ⟨(listings_stop_at_first_failure routesDownActor "s1" "org-guid" 0).1.1
      demoRoutes ["routes-warning"] (Error.other "down") 1 rfl,
   (listings_stop_at_first_failure spacesDownActor "s1" "org-guid" 0).1.2.1
      demoRoutes demoSpaces ["routes-warning"] ["spaces-warning"] (Error.other "down") 1 2 rfl rfl,
   (listings_stop_at_first_failure domainsDownActor "s1" "org-guid" 0).1.2.2.1
      demoRoutes demoSpaces demoDomains ["routes-warning"] ["spaces-warning"]
      ["domains-warning"] (Error.other "down") 1 2 3 rfl rfl rfl,
   (listings_stop_at_first_failure demoListActor "s1" "org-guid" 0).1.2.2.2
      demoRoutes demoSpaces demoDomains ["routes-warning"] ["spaces-warning"]
      ["domains-warning"] 1 2 3 rfl rfl rfl,
   (listings_stop_at_first_failure routesDownActor "s1" "org-guid" 0).2.1
      demoRoutes ["routes-warning"] (Error.other "down") 1 rfl,
   (listings_stop_at_first_failure spacesDownActor "s1" "org-guid" 0).2.2.1
      demoRoutes demoSpaces ["routes-warning"] ["spaces-warning"] (Error.other "down") 1 2 rfl rfl,
   (listings_stop_at_first_failure domainsDownActor "s1" "org-guid" 0).2.2.2.1
      demoRoutes demoSpaces demoDomains ["routes-warning"] ["spaces-warning"]
      ["domains-warning"] (Error.other "down") 1 2 3 rfl rfl rfl,
   (listings_stop_at_first_failure demoListActor "s1" "org-guid" 0).2.2.2.2
      demoRoutes demoSpaces demoDomains ["routes-warning"] ["spaces-warning"]
      ["domains-warning"] 1 2 3 rfl rfl rfl⟩

/-! ## Authenticate -/

/-- Claim C18: when the stored grant type is `client_credentials` and `Authenticate` is
called with the password grant type, whatever the credentials and the origin, it returns
`PasswordGrantTypeLogoutRequiredError`, reads the stored grant type exactly once, and calls
neither the identity-provider client nor the token setter of the session store. -/
theorem Authenticate_logout_required {σ : Type} (actor : AuthActor σ)
    (credentials : List (String × String)) (origin : String) (s s1 : σ)
    (hg : actor.Config.UAAGrantType s = ("client_credentials", s1)) :
    (Authenticate actor credentials origin GrantTypePassword s).err
      = some Error.PasswordGrantTypeLogoutRequiredError ∧
    callsTo "UAAGrantType" (Authenticate actor credentials origin GrantTypePassword s).calls
      = [Call.UAAGrantType] ∧
    callsTo "Authenticate" (Authenticate actor credentials origin GrantTypePassword s).calls
      = [] ∧
    callsTo "SetTokenInformation"
      (Authenticate actor credentials origin GrantTypePassword s).calls = [] ∧
    (Authenticate actor credentials origin GrantTypePassword s).calls
      = [Call.UAAGrantType] := by
  simp [Authenticate, hg, GrantTypeClientCredentials, callsTo, Call.method]

theorem Authenticate_logout_required_witness :
    (Authenticate (demoAuthActor none) [("username", "u"), ("password", "p")] "uaa"
        GrantTypePassword ("client_credentials", 0)).err
      = some Error.PasswordGrantTypeLogoutRequiredError ∧
    callsTo "UAAGrantType" (Authenticate (demoAuthActor none)
        [("username", "u"), ("password", "p")] "uaa"
        GrantTypePassword ("client_credentials", 0)).calls = [Call.UAAGrantType] ∧
    callsTo "Authenticate" (Authenticate (demoAuthActor none)
        [("username", "u"), ("password", "p")] "uaa"
        GrantTypePassword ("client_credentials", 0)).calls = [] ∧
    callsTo "SetTokenInformation" (Authenticate (demoAuthActor none)
        [("username", "u"), ("password", "p")] "uaa"
        GrantTypePassword ("client_credentials", 0)).calls = [] ∧
    (Authenticate (demoAuthActor none) [("username", "u"), ("password", "p")] "uaa"
        GrantTypePassword ("client_credentials", 0)).calls = [Call.UAAGrantType] :=
  Authenticate_logout_required (demoAuthActor none) [("username", "u"), ("password", "p")]
    "uaa" ("client_credentials", 0) ("client_credentials", 1) rfl

/-- Claim C19: for a password-grant `Authenticate` call with a stored grant type other than
`client_credentials`, when the identity-provider client returns the access token `t` and the
refresh token `r` without error, `Authenticate` returns no error, calls the identity-provider
client exactly once with the caller's credentials, origin and grant type, calls
`SetTokenInformation` exactly once with `bearer ` followed by `t`, `r` and the empty string,
calls `SetUAAGrantType` exactly once with the empty string, and calls
`UnsetOrganizationAndSpaceInformation` exactly once. -/
theorem Authenticate_password_success {σ : Type} (actor : AuthActor σ)
    (credentials : List (String × String)) (origin stored t r : String) (s s1 s2 : σ)
    (hg : actor.Config.UAAGrantType s = (stored, s1))
    (hne : stored ≠ "client_credentials")
    (hu : actor.UAAClient.Authenticate credentials origin GrantTypePassword s1
      = ((t, r, none), s2)) :
    (Authenticate actor credentials origin GrantTypePassword s).err = none ∧
    callsTo "Authenticate" (Authenticate actor credentials origin GrantTypePassword s).calls
      = [Call.UAAClientAuthenticate credentials origin GrantTypePassword] ∧
    callsTo "SetTokenInformation"
      (Authenticate actor credentials origin GrantTypePassword s).calls
      = [Call.SetTokenInformation ("bearer " ++ t) r ""] ∧
    callsTo "SetUAAGrantType" (Authenticate actor credentials origin GrantTypePassword s).calls
      = [Call.SetUAAGrantType ""] ∧
    callsTo "UnsetOrganizationAndSpaceInformation"
      (Authenticate actor credentials origin GrantTypePassword s).calls
      = [Call.UnsetOrganizationAndSpaceInformation] := by
  simp [Authenticate, Authenticate.exchange, hg, hne, hu, GrantTypeClientCredentials,
    callsTo, Call.method]

theorem Authenticate_password_success_witness :
    (Authenticate (demoAuthActor none)
        [("client_id", "some-username"), ("client_secret", "some-password"), ("origin", "uaa")]
        "uaa" GrantTypePassword ("", 0)).err = none ∧
    callsTo "Authenticate" (Authenticate (demoAuthActor none)
        [("client_id", "some-username"), ("client_secret", "some-password"), ("origin", "uaa")]
        "uaa" GrantTypePassword ("", 0)).calls
      = [Call.UAAClientAuthenticate
          [("client_id", "some-username"), ("client_secret", "some-password"),
           ("origin", "uaa")] "uaa" GrantTypePassword] ∧
    callsTo "SetTokenInformation" (Authenticate (demoAuthActor none)
        [("client_id", "some-username"), ("client_secret", "some-password"), ("origin", "uaa")]
        "uaa" GrantTypePassword ("", 0)).calls
      = [Call.SetTokenInformation ("bearer " ++ "some-access-token") "some-refresh-token" ""] ∧
    callsTo "SetUAAGrantType" (Authenticate (demoAuthActor none)
        [("client_id", "some-username"), ("client_secret", "some-password"), ("origin", "uaa")]
        "uaa" GrantTypePassword ("", 0)).calls = [Call.SetUAAGrantType ""] ∧
    callsTo "UnsetOrganizationAndSpaceInformation" (Authenticate (demoAuthActor none)
        [("client_id", "some-username"), ("client_secret", "some-password"), ("origin", "uaa")]
        "uaa" GrantTypePassword ("", 0)).calls
      = [Call.UnsetOrganizationAndSpaceInformation] :=
  Authenticate_password_success (demoAuthActor none)
    [("client_id", "some-username"), ("client_secret", "some-password"), ("origin", "uaa")]
    "uaa" "" "some-access-token" "some-refresh-token" ("", 0) ("", 1) ("", 2)
    rfl (by decide) rfl

/-- Claim C20: whenever the identity-provider client is called and returns an error `e`,
`Authenticate` returns `e` unchanged, and the session store receives
`SetTokenInformation("", "", "")` exactly once and `UnsetOrganizationAndSpaceInformation()`
exactly once.  The client is called for every grant type other than password, and for the
password grant type when the stored grant type is not `client_credentials`. -/
theorem Authenticate_failure {σ : Type} (actor : AuthActor σ)
    (credentials : List (String × String)) (origin : String) (grantType : GrantType)
    (t r : String) (e : Error) (s s2 : σ)
    (hgate : grantType = GrantTypePassword →
      (actor.Config.UAAGrantType s).1 ≠ GrantTypeClientCredentials)
    (hu : actor.UAAClient.Authenticate credentials origin grantType
        (if grantType = GrantTypePassword then (actor.Config.UAAGrantType s).2 else s)
      = ((t, r, some e), s2)) :
    (Authenticate actor credentials origin grantType s).err = some e ∧
    callsTo "SetTokenInformation" (Authenticate actor credentials origin grantType s).calls
      = [Call.SetTokenInformation "" "" ""] ∧
    callsTo "UnsetOrganizationAndSpaceInformation"
      (Authenticate actor credentials origin grantType s).calls
      = [Call.UnsetOrganizationAndSpaceInformation] := by
  by_cases hp : grantType = GrantTypePassword
  · have h1 := hgate hp
    rw [if_pos hp] at hu
    subst hp
    simp [Authenticate, Authenticate.exchange, h1, hu, callsTo, Call.method]
  · rw [if_neg hp] at hu
    simp [Authenticate, Authenticate.exchange, hp, hu, callsTo, Call.method]

theorem Authenticate_failure_witness :
    ((Authenticate (demoAuthActor (some (Error.other "some error")))
        [("client_id", "some-username")] "uaa" GrantTypePassword ("", 0)).err
      = some (Error.other "some error") ∧
    callsTo "SetTokenInformation" (Authenticate (demoAuthActor (some (Error.other "some error")))
        [("client_id", "some-username")] "uaa" GrantTypePassword ("", 0)).calls
      = [Call.SetTokenInformation "" "" ""] ∧
    callsTo "UnsetOrganizationAndSpaceInformation"
      (Authenticate (demoAuthActor (some (Error.other "some error")))
        [("client_id", "some-username")] "uaa" GrantTypePassword ("", 0)).calls
      = [Call.UnsetOrganizationAndSpaceInformation]) ∧
    ((Authenticate (demoAuthActor (some (Error.other "some error")))
        [("client_id", "some-username")] "uaa" GrantTypeClientCredentials
        ("client_credentials", 0)).err
      = some (Error.other "some error") ∧
    callsTo "SetTokenInformation" (Authenticate (demoAuthActor (some (Error.other "some error")))
        [("client_id", "some-username")] "uaa" GrantTypeClientCredentials
        ("client_credentials", 0)).calls
      = [Call.SetTokenInformation "" "" ""] ∧
    callsTo "UnsetOrganizationAndSpaceInformation"
      (Authenticate (demoAuthActor (some (Error.other "some error")))
        [("client_id", "some-username")] "uaa" GrantTypeClientCredentials
        ("client_credentials", 0)).calls
      = [Call.UnsetOrganizationAndSpaceInformation]) :=
  ⟨Authenticate_failure (demoAuthActor (some (Error.other "some error")))
      [("client_id", "some-username")] "uaa" GrantTypePassword
      "some-access-token" "some-refresh-token" (Error.other "some error") ("", 0) ("", 2)
      (fun _ => by decide) rfl,
   Authenticate_failure (demoAuthActor (some (Error.other "some error")))
      [("client_id", "some-username")] "uaa" GrantTypeClientCredentials
      "some-access-token" "some-refresh-token" (Error.other "some error")
      ("client_credentials", 0) ("client_credentials", 1)
      (fun h => absurd h (by decide)) rfl⟩

/-! ## DeleteRoute: the path of the not-found error and the route deleted -/

/-- Claim C21: the `RouteNotFoundError` that `DeleteRoute` returns carries the normalized
path, while DomainName and Host are the caller's inputs: for every non-empty path `p` that
does not begin with `/`, when the query finds no route, the error's Path is `/` followed by
`p`. -/
theorem DeleteRoute_not_found_path {σ : Type} (actor : Actor σ)
    (domainName hostname p : String) (s s1 s2 : σ) (domain : Domain) (wd wq : Warnings)
    (hp0 : p ≠ "") (hp1 : ¬ ∃ r, p = "/" ++ r)
    (hd : actor.GetDomainByName domainName s = ((domain, wd, none), s1))
    (hq : actor.CloudControllerClient.GetRoutes
        [ ⟨ccv3.QueryKey.DomainGUIDFilter, [domain.GUID]⟩,
          ⟨ccv3.QueryKey.HostnameFilter, [hostname]⟩,
          ⟨ccv3.QueryKey.PathFilter, ["/" ++ p]⟩ ] s1 = (([], wq, none), s2)) :
    (DeleteRoute actor domainName hostname p s).err
      = some (Error.RouteNotFoundError domainName hostname ("/" ++ p)) := by
  have hpath : DeleteRoute.path p = "/" ++ p := by
    rw [DeleteRoute.path_eq]
    exact CreateRoute.path_of_not_rooted p (fun h => h.elim hp0 hp1)
  simp [DeleteRoute, hd, hq, hpath]

theorem DeleteRoute_not_found_path_witness :
    (DeleteRoute (listActor [] [] [] none none none none none none)
        "example.com" "www" "foo" 0).err
      = some (Error.RouteNotFoundError "example.com" "www" ("/" ++ "foo")) ∧
    "/" ++ "foo" = "/foo" :=
  ⟨DeleteRoute_not_found_path (listActor [] [] [] none none none none none none)
      "example.com" "www" "foo" 0 1 2 ⟨"domain-guid", "example.com"⟩
      ["domain-warning"] ["routes-warning"] (by decide)
      (by
        rintro ⟨r, h⟩
        have h2 := congrArg (fun t : String => t.get 0) h
        simp only [String.get_zero_slash_append] at h2
        exact absurd h2 (by decide))
      rfl rfl,
   by decide⟩

/-- Claim C22: `DeleteRoute` does not require the match to be unique.  For every non-empty
list of routes that the route query returns, of any length, exactly one deletion request is
made, for the GUID of the first route of the list; the other matches are not deleted, and
the error returned is that of the deletion request or, when it succeeds, that of the poll,
whatever the other matches are. -/
theorem DeleteRoute_first_match {σ : Type} (actor : Actor σ)
    (domainName hostname path : String) (s s1 s2 s3 : σ) (domain : Domain)
    (route0 : ccv3.Route) (rest : List ccv3.Route) (j : ccv3.JobURL)
    (wd wq wx : Warnings) (deleteErr : Option Error)
    (hd : actor.GetDomainByName domainName s = ((domain, wd, none), s1))
    (hq : actor.CloudControllerClient.GetRoutes
        [ ⟨ccv3.QueryKey.DomainGUIDFilter, [domain.GUID]⟩,
          ⟨ccv3.QueryKey.HostnameFilter, [hostname]⟩,
          ⟨ccv3.QueryKey.PathFilter, [DeleteRoute.path path]⟩ ] s1
      = ((route0 :: rest, wq, none), s2))
    (hx : actor.CloudControllerClient.DeleteRoute route0.GUID s2 = ((j, wx, deleteErr), s3)) :
    callsTo "DeleteRoute" (DeleteRoute actor domainName hostname path s).calls
      = [Call.DeleteRoute route0.GUID] ∧
    (DeleteRoute actor domainName hostname path s).err
      = deleteErr.or (actor.CloudControllerClient.PollJob j s3).1.2 := by
  cases deleteErr with
  | some e => simp [DeleteRoute, hd, hq, hx, callsTo, Call.method]
  | none => simp [DeleteRoute, hd, hq, hx, callsTo, Call.method]

theorem DeleteRoute_first_match_witness :
    callsTo "DeleteRoute" (DeleteRoute demoListActor "example.com" "www" "" 0).calls
      = [Call.DeleteRoute "r1"] ∧
    (DeleteRoute demoListActor "example.com" "www" "" 0).err
      = (none : Option Error).or (demoListActor.CloudControllerClient.PollJob "job-url" 3).1.2 :=
  DeleteRoute_first_match demoListActor "example.com" "www" "" 0 1 2 3
    ⟨"domain-guid", "example.com"⟩ ⟨"r1", "s1", "d1", "www", ""⟩
    [⟨"r2", "s1", "d2", "api", "/v2"⟩, ⟨"r3", "s2", "d1", "app", ""⟩] "job-url"
    ["domain-warning"] ["routes-warning"] ["delete-warning"] none rfl rfl rfl

/-! ## CreateRoute: the Route returned with an error of another kind -/

/-- Claim C23, as it is written, fails: the caller passes empty names, the resolvers
succeed, and the create call fails with an error that is not a `RouteNotUniqueError` while
returning the zero route; the Route returned alongside the error is the empty Route. -/
theorem CreateRoute_other_error_route_may_be_empty :
    ¬ (∀ e, (CreateRoute zeroRouteActor "" "" "" "" "" 0).err = some e →
        (∀ m, e ≠ Error.RouteNotUniqueError m) →
        (CreateRoute zeroRouteActor "" "" "" "" "" 0).value ≠ Route.zero) := by
  intro h
  exact h (Error.other "boom") rfl (fun _ hm => Error.noConfusion hm) rfl

/-- Claim C23, amended: when the resolvers succeed and the create call fails with an error
other than `RouteNotUniqueError`, the Route returned alongside the error has the
caller-supplied SpaceName and DomainName and the GUID, Host, Path, SpaceGUID and DomainGUID
of the route value the client returned; it is the empty Route only when these seven values
are all empty.  A resolver failure and the not-unique case return the empty Route. -/
theorem CreateRoute_other_error_route {σ : Type} (actor : Actor σ)
    (orgName spaceName domainName hostname path : String) (s : σ) :
    (∀ (domain : Domain) (org : Organization) (space : Space) (route : ccv3.Route)
        (wd wo ws wc : Warnings) (e : Error) (s1 s2 s3 s4 : σ),
      actor.GetDomainByName domainName s = ((domain, wd, none), s1) →
      actor.GetOrganizationByName orgName s1 = ((org, wo, none), s2) →
      actor.GetSpaceByNameAndOrganization spaceName org.GUID s2 = ((space, ws, none), s3) →
      actor.CloudControllerClient.CreateRoute
          ⟨"", space.GUID, domain.GUID, hostname, CreateRoute.path path⟩ s3
        = ((route, wc, some e), s4) →
      (∀ m, e ≠ Error.RouteNotUniqueError m) →
      (CreateRoute actor orgName spaceName domainName hostname path s).err = some e ∧
      (CreateRoute actor orgName spaceName domainName hostname path s).value
        = { GUID := route.GUID, Host := route.Host, Path := route.Path,
            SpaceGUID := route.SpaceGUID, DomainGUID := route.DomainGUID,
            SpaceName := spaceName, DomainName := domainName } ∧
      ((CreateRoute actor orgName spaceName domainName hostname path s).value = Route.zero ↔
        spaceName = "" ∧ domainName = "" ∧ route = ⟨"", "", "", "", ""⟩)) ∧
    (∀ (domain : Domain) (wd : Warnings) (e : Error) (s1 : σ),
      actor.GetDomainByName domainName s = ((domain, wd, some e), s1) →
      (CreateRoute actor orgName spaceName domainName hostname path s).value = Route.zero) ∧
    (∀ (domain : Domain) (org : Organization) (wd wo : Warnings) (e : Error) (s1 s2 : σ),
      actor.GetDomainByName domainName s = ((domain, wd, none), s1) →
      actor.GetOrganizationByName orgName s1 = ((org, wo, some e), s2) →
      (CreateRoute actor orgName spaceName domainName hostname path s).value = Route.zero) ∧
    (∀ (domain : Domain) (org : Organization) (space : Space) (wd wo ws : Warnings)
        (e : Error) (s1 s2 s3 : σ),
      actor.GetDomainByName domainName s = ((domain, wd, none), s1) →
      actor.GetOrganizationByName orgName s1 = ((org, wo, none), s2) →
      actor.GetSpaceByNameAndOrganization spaceName org.GUID s2 = ((space, ws, some e), s3) →
      (CreateRoute actor orgName spaceName domainName hostname path s).value = Route.zero) ∧
    (∀ (domain : Domain) (org : Organization) (space : Space) (route : ccv3.Route)
        (wd wo ws wc : Warnings) (m : String) (s1 s2 s3 s4 : σ),
      actor.GetDomainByName domainName s = ((domain, wd, none), s1) →
      actor.GetOrganizationByName orgName s1 = ((org, wo, none), s2) →
      actor.GetSpaceByNameAndOrganization spaceName org.GUID s2 = ((space, ws, none), s3) →
      actor.CloudControllerClient.CreateRoute
          ⟨"", space.GUID, domain.GUID, hostname, CreateRoute.path path⟩ s3
        = ((route, wc, some (Error.RouteNotUniqueError m)), s4) →
      (CreateRoute actor orgName spaceName domainName hostname path s).value = Route.zero) := by
  refine ⟨?_, ?_, ?_, ?_, ?_⟩
  · intro domain org space route wd wo ws wc e s1 s2 s3 s4 hd ho hs hc he
    have hrun : (CreateRoute actor orgName spaceName domainName hostname path s).err = some e ∧
        (CreateRoute actor orgName spaceName domainName hostname path s).value
          = { GUID := route.GUID, Host := route.Host, Path := route.Path,
              SpaceGUID := route.SpaceGUID, DomainGUID := route.DomainGUID,
              SpaceName := spaceName, DomainName := domainName } := by
      cases e with
      | RouteNotUniqueError m => exact absurd rfl (he m)
      | RouteAlreadyExistsError e2 => simp [CreateRoute, hd, ho, hs, hc]
      | RouteNotFoundError d h p => simp [CreateRoute, hd, ho, hs, hc]
      | PasswordGrantTypeLogoutRequiredError => simp [CreateRoute, hd, ho, hs, hc]
      | other d => simp [CreateRoute, hd, ho, hs, hc]
    refine ⟨hrun.1, hrun.2, ?_⟩
    rw [hrun.2]
    rcases route with ⟨g, sg, dg, h, p⟩
    simp only [Route.zero, Route.mk.injEq, ccv3.Route.mk.injEq]
    constructor
    · rintro ⟨h1, h2, h3, h4, h5, h6, h7⟩
      exact ⟨h7, h6, h1, h2, h3, h4, h5⟩
    · rintro ⟨h7, h6, h1, h2, h3, h4, h5⟩
      exact ⟨h1, h2, h3, h4, h5, h6, h7⟩
  · intro domain wd e s1 hd
    simp [CreateRoute, hd]
  · intro domain org wd wo e s1 s2 hd ho
    simp [CreateRoute, hd, ho]
  · intro domain org space wd wo ws e s1 s2 s3 hd ho hs
    simp [CreateRoute, hd, ho, hs]
  · intro domain org space route wd wo ws wc m s1 s2 s3 s4 hd ho hs hc
    simp [CreateRoute, hd, ho, hs, hc]

theorem CreateRoute_other_error_route_witness :
    ((CreateRoute (demoActor none none none (some (Error.other "boom")) [] none)
        "org" "space" "example.com" "www" "foo" 0).err = some (Error.other "boom") ∧
    (CreateRoute (demoActor none none none (some (Error.other "boom")) [] none)
        "org" "space" "example.com" "www" "foo" 0).value
      = { GUID := "route-guid", Host := "www", Path := "/foo",
          SpaceGUID := "space-guid", DomainGUID := "domain-guid",
          SpaceName := "space", DomainName := "example.com" } ∧
    ((CreateRoute (demoActor none none none (some (Error.other "boom")) [] none)
        "org" "space" "example.com" "www" "foo" 0).value = Route.zero ↔
      "space" = "" ∧ "example.com" = "" ∧
        (⟨"route-guid", "space-guid", "domain-guid", "www", "/foo"⟩ : ccv3.Route)
          = ⟨"", "", "", "", ""⟩)) ∧
    (CreateRoute (demoActor (some (Error.other "no domain")) none none none [] none)
        "org" "space" "example.com" "www" "foo" 0).value = Route.zero ∧
    (CreateRoute (demoActor none none none (some (Error.RouteNotUniqueError "taken")) [] none)
        "org" "space" "example.com" "www" "foo" 0).value = Route.zero :=
  ⟨(CreateRoute_other_error_route
      (demoActor none none none (some (Error.other "boom")) [] none)
      "org" "space" "example.com" "www" "foo" 0).1
      ⟨"domain-guid", "example.com"⟩ ⟨"org-guid", "org"⟩ ⟨"space-guid", "space"⟩
      ⟨"route-guid", "space-guid", "domain-guid", "www", "/foo"⟩
      ["domain-warning"] ["org-warning"] ["space-warning"] ["create-warning"]
      (Error.other "boom") 1 2 3 4 rfl rfl rfl rfl (fun _ h => Error.noConfusion h),
   (CreateRoute_other_error_route
      (demoActor (some (Error.other "no domain")) none none none [] none)
      "org" "space" "example.com" "www" "foo" 0).2.1
      ⟨"domain-guid", "example.com"⟩ ["domain-warning"] (Error.other "no domain") 1 rfl,
   (CreateRoute_other_error_route
      (demoActor none none none (some (Error.RouteNotUniqueError "taken")) [] none)
      "org" "space" "example.com" "www" "foo" 0).2.2.2.2
      ⟨"domain-guid", "example.com"⟩ ⟨"org-guid", "org"⟩ ⟨"space-guid", "space"⟩
      ⟨"route-guid", "space-guid", "domain-guid", "www", "/foo"⟩
      ["domain-warning"] ["org-warning"] ["space-warning"] ["create-warning"] "taken"
      1 2 3 4 rfl rfl rfl rfl⟩

/-! ## The listings keep the routes -/

/-- The joined routes are as many as the backend routes, and the route at each index has
the five backend fields of the backend route at that index. -/
theorem actorRoutes_keeps_routes (routes : List ccv3.Route) (spaces : List ccv3.Space)
    (domains : List ccv3.Domain) :
    (actorRoutes routes (spacesByGUID spaces) (domainsByGUID domains)).length = routes.length ∧
    (routes = [] → actorRoutes routes (spacesByGUID spaces) (domainsByGUID domains) = []) ∧
    ∀ (i : Nat) (route : ccv3.Route), routes[i]? = some route →
      ∃ r, (actorRoutes routes (spacesByGUID spaces) (domainsByGUID domains))[i]? = some r ∧
        r.GUID = route.GUID ∧ r.Host = route.Host ∧ r.Path = route.Path ∧
        r.SpaceGUID = route.SpaceGUID ∧ r.DomainGUID = route.DomainGUID := by
  rw [actorRoutes_eq]
  refine ⟨by simp, ?_, ?_⟩
  · intro h
    simp [h]
  · intro i route hi
    rw [List.getElem?_map, hi]
    exact ⟨_, rfl, rfl, rfl, rfl, rfl, rfl⟩

/-- Claim C24: `GetRoutesBySpace` and `GetRoutesByOrg` neither drop, add nor reorder routes.
On success the returned list is non-nil, has the length of the route list the backend
returned (so it is the empty list when the backend returned none), and at every index `i`
its Route has the GUID, Host, Path, SpaceGUID and DomainGUID of the `i`-th backend route. -/
theorem listings_keep_routes {σ : Type} (actor : Actor σ) (spaceGUID orgGUID : String)
    (s s1 s2 s3 : σ) (routes : List ccv3.Route) (spaces : List ccv3.Space)
    (domains : List ccv3.Domain) (wr ws wd : Warnings) :
    (actor.CloudControllerClient.GetRoutes
        [⟨ccv3.QueryKey.SpaceGUIDFilter, [spaceGUID]⟩] s = ((routes, wr, none), s1) →
      actor.CloudControllerClient.GetSpaces
        [⟨ccv3.QueryKey.GUIDFilter, [spaceGUID]⟩] s1 = ((spaces, ws, none), s2) →
      actor.CloudControllerClient.GetDomains
        [⟨ccv3.QueryKey.GUIDFilter, GetRoutesBySpace.domainGUIDs routes⟩] s2
        = ((domains, wd, none), s3) →
      ∃ rs, (GetRoutesBySpace actor spaceGUID s).value = some rs ∧
        rs.length = routes.length ∧
        (routes = [] → rs = []) ∧
        ∀ (i : Nat) (route : ccv3.Route), routes[i]? = some route →
          ∃ r, rs[i]? = some r ∧ r.GUID = route.GUID ∧ r.Host = route.Host ∧
            r.Path = route.Path ∧ r.SpaceGUID = route.SpaceGUID ∧
            r.DomainGUID = route.DomainGUID) ∧
    (actor.CloudControllerClient.GetRoutes
        [⟨ccv3.QueryKey.OrganizationGUIDFilter, [orgGUID]⟩] s = ((routes, wr, none), s1) →
      actor.CloudControllerClient.GetSpaces
        [(GetRoutesByOrg.queries routes).1] s1 = ((spaces, ws, none), s2) →
      actor.CloudControllerClient.GetDomains
        [(GetRoutesByOrg.queries routes).2] s2 = ((domains, wd, none), s3) →
      ∃ rs, (GetRoutesByOrg actor orgGUID s).value = some rs ∧
        rs.length = routes.length ∧
        (routes = [] → rs = []) ∧
        ∀ (i : Nat) (route : ccv3.Route), routes[i]? = some route →
          ∃ r, rs[i]? = some r ∧ r.GUID = route.GUID ∧ r.Host = route.Host ∧
            r.Path = route.Path ∧ r.SpaceGUID = route.SpaceGUID ∧
            r.DomainGUID = route.DomainGUID) := by
  have hk := actorRoutes_keeps_routes routes spaces domains
  constructor
  · intro hr hs hd
    rw [GetRoutesBySpace.run_bySpace_success actor spaceGUID s s1 s2 s3 routes spaces domains
      wr ws wd hr hs hd]
    exact ⟨_, rfl, hk⟩
  · intro hr hs hd
    rw [GetRoutesByOrg.run_byOrg_success actor orgGUID s s1 s2 s3 routes spaces domains
      wr ws wd hr hs hd]
    exact ⟨_, rfl, hk⟩

theorem listings_keep_routes_witness :
    (∃ rs, (GetRoutesBySpace demoListActor "s1" 0).value = some rs ∧
        rs.length = demoRoutes.length ∧
        (demoRoutes = [] → rs = []) ∧
        ∀ (i : Nat) (route : ccv3.Route), demoRoutes[i]? = some route →
          ∃ r, rs[i]? = some r ∧ r.GUID = route.GUID ∧ r.Host = route.Host ∧
            r.Path = route.Path ∧ r.SpaceGUID = route.SpaceGUID ∧
            r.DomainGUID = route.DomainGUID) ∧
    (∃ rs, (GetRoutesByOrg demoListActor "org-guid" 0).value = some rs ∧
        rs.length = demoRoutes.length ∧
        (demoRoutes = [] → rs = []) ∧
        ∀ (i : Nat) (route : ccv3.Route), demoRoutes[i]? = some route →
          ∃ r, rs[i]? = some r ∧ r.GUID = route.GUID ∧ r.Host = route.Host ∧
            r.Path = route.Path ∧ r.SpaceGUID = route.SpaceGUID ∧
            r.DomainGUID = route.DomainGUID) ∧
    (GetRoutesBySpace (listActor [] [] [] none none none none none none) "s1" 0).value
      = some [] :=
  ⟨(listings_keep_routes demoListActor "s1" "org-guid" 0 1 2 3 demoRoutes demoSpaces
      demoDomains ["routes-warning"] ["spaces-warning"] ["domains-warning"]).1 rfl rfl rfl,
   (listings_keep_routes demoListActor "s1" "org-guid" 0 1 2 3 demoRoutes demoSpaces
      demoDomains ["routes-warning"] ["spaces-warning"] ["domains-warning"]).2 rfl rfl rfl,
   by decide⟩

end V7action
